import Mathlib

/-!
Verification development for the fuzzy correction engine of the glideaware
repository (file `fuzzyMatcher.js`, with its dictionary `servicenowDictionary.js`).

Modelling conventions of this shallow embedding:
* JS strings are Lean `String`s; indexing, `length` and `slice` are modelled on
  the character list (`String.toList`), which coincides with JS UTF-16 units on
  the ASCII data the engine manipulates.
* JS numbers are modelled exactly: indices / edit distances as `Nat`, the
  `Infinity` initialiser of `bestDistance` as `⊤ : ℕ∞`, and similarity scores
  as `ℚ` (the engine only adds, subtracts, divides and compares; no rounding
  behaviour of IEEE doubles is relied upon by the sources at hand).
* `toLowerCase` is modelled by ASCII lowering (`Char.toLower`); the engine only
  compares ASCII identifiers.
* JS object property access on the dictionary literal is modelled as own-key
  association-list lookup (prototype-chain inheritance is not modelled).
* A JS `Map` is modelled as an insertion-ordered association list with
  replace-on-set semantics.
-/

set_option maxHeartbeats 4000000
set_option maxRecDepth 100000

namespace Glideaware

/-- JS `\w` character class: `[A-Za-z0-9_]`. -/
def isWordChar (c : Char) : Bool := c.isAlpha || c.isDigit || c = '_'

/-- JS `\s` character class restricted to its ASCII members
(space, tab, LF, CR, VT, FF); the Unicode space members are not modelled. -/
def isSpaceChar (c : Char) : Bool :=
  c = ' ' || c = '\t' || c = '\n' || c = '\r' || c = '\x0b' || c = '\x0c'

/-- JS `String.prototype.toLowerCase`, restricted to ASCII lowering. -/
def jsToLower (s : String) : String := String.mk (s.toList.map Char.toLower)

/-- JS `str.slice(0, n)` on our character-list view of strings. -/
def strTake (s : String) (n : Nat) : String := String.mk (s.toList.take n)

/-- JS `str.slice(n)` on our character-list view of strings. -/
def strDrop (s : String) (n : Nat) : String := String.mk (s.toList.drop n)

/-- First index at which `needle` occurs in `hay` (JS `String.prototype.indexOf`
returns `-1` when absent; we return `none`, and the caller in `analyzeCode`
only ever searches for a string that is present by construction). -/
def subIndexOf : List Char → List Char → Option Nat
  | hay, needle =>
    if needle.isPrefixOf hay then some 0
    else
      match hay with
      | [] => none
      | _ :: t =>
        match subIndexOf t needle with
        | some n => some (n + 1)
        | none => none

/-- JS `[...new Set(l)]`: de-duplication keeping first occurrences in order. -/
def jsSetDedup (l : List String) : List String :=
  l.foldl (fun acc x => if x ∈ acc then acc else acc ++ [x]) []

/-!
### Damerau-Levenshtein distance (`damerauLevenshteinDistance`, fuzzyMatcher.js 53-87)

The JS function fills a `(lenA+1) × (lenB+1)` matrix `d` row by row:
`d[i][0] = i`, `d[0][j] = j`, and for `i, j ≥ 1`

  `d[i][j] = min(d[i-1][j] + 1, d[i][j-1] + 1, d[i-1][j-1] + cost)`,

additionally taking `min` with `d[i-2][j-2] + cost` when
`i > 1 && j > 1 && a[i-1] == b[j-2] && a[i-2] == b[j-1]`
(`cost = a[i-1] == b[j-1] ? 0 : 1`).

We embed the two loops directly: `rowCells` is the inner `j`-loop producing row
`i` from rows `i-1` (`p`) and `i-2` (`pp`); `rowsLoop` is the outer `i`-loop.
The fuel arguments are the loop trip counts (`lb.length` resp. `la.length`),
so the recursion is structural and the definitions evaluate in the kernel.
-/

/-- One matrix cell `d[i][j]` of the JS algorithm, given row `i-2` (`pp`),
row `i-1` (`p`) and the already-built prefix of row `i` (`curr`). -/
def dCell (la lb : List Char) (i j : Nat) (pp p curr : List Nat) : Nat :=
  let cost : Nat := if la.getD (i - 1) ' ' = lb.getD (j - 1) ' ' then 0 else 1
  let base :=
    min (min (p.getD j 0 + 1) (curr.getD (j - 1) 0 + 1)) (p.getD (j - 1) 0 + cost)
  if 1 < i ∧ 1 < j ∧ la.getD (i - 1) ' ' = lb.getD (j - 2) ' ' ∧
      la.getD (i - 2) ' ' = lb.getD (j - 1) ' ' then
    min base (pp.getD (j - 2) 0 + cost)
  else base

/-- Inner loop of the JS matrix fill: extends `curr` (row `i`, entries `0..j-1`)
with entries `j, j+1, ...`; `fuel` is the number of columns still to fill. -/
def rowCells (la lb : List Char) (i : Nat) (pp p : List Nat) :
    List Nat → Nat → Nat → List Nat
  | curr, _, 0 => curr
  | curr, j, fuel + 1 =>
    rowCells la lb i pp p (curr ++ [dCell la lb i j pp p curr]) (j + 1) fuel

/-- Outer loop of the JS matrix fill: iterates rows `i, i+1, ...`; `fuel` is the
number of rows still to fill; returns the last row. -/
def rowsLoop (la lb : List Char) : List Nat → List Nat → Nat → Nat → List Nat
  | _, p, _, 0 => p
  | pp, p, i, fuel + 1 =>
    rowsLoop la lb p (rowCells la lb i pp p [i] 1 lb.length) (i + 1) fuel

/-- `d[lenA][lenB]` of the JS matrix. -/
def dMatrixFinal (la lb : List Char) : Nat :=
  (rowsLoop la lb [] (List.range (lb.length + 1)) 1 la.length).getD lb.length 0

/-- `damerauLevenshteinDistance` (fuzzyMatcher.js 53-87), including the three
early returns for equal strings and empty arguments. -/
def damerauLevenshteinDistance (a b : String) : Nat :=
  if a = b then 0
  else if a.length = 0 then b.length
  else if b.length = 0 then a.length
  else dMatrixFinal a.toList b.toList

/-!
### The ServiceNow dictionary (servicenowDictionary.js)
-/

/-- servicenowDictionary.js: `GLIDE_RECORD_METHODS`. -/
def GLIDE_RECORD_METHODS : List String := [
  "addQuery", "addEncodedQuery", "addActiveQuery", "addInactiveQuery", "addNullQuery",
  "addNotNullQuery", "addOrCondition", "addJoinQuery", "addDomainQuery", "addFunction",
  "setCategory", "setLimit", "setEncodedQuery", "orderBy", "orderByDesc", "addOrderBy",
  "chooseWindow", "setQueryReferences", "query", "get", "next", "hasNext", "getRowCount",
  "getEncodedQuery", "_next", "_query", "getValue", "setValue", "getDisplayValue",
  "setDisplayValue", "getElement", "getUniqueValue", "getBooleanValue", "getLink",
  "getRecordClassName", "getClassDisplayValue", "getTableName", "getLabel", "getED",
  "getAttribute", "isValidField", "isValid", "isValidRecord", "isNewRecord", "nil",
  "getFields", "getElements", "insert", "update", "deleteRecord", "deleteMultiple",
  "updateMultiple", "applyTemplate", "newRecord", "initialize", "setWorkflow",
  "setAbortAction", "isActionAborted", "autoSysFields", "setForceUpdate", "setNewGuidValue",
  "operation", "setLocation", "canRead", "canWrite", "canCreate", "canDelete", "getReference",
  "getReferenceTable", "getAttachments"]

/-- servicenowDictionary.js: `GLIDE_AGGREGATE_METHODS` (spread of the filtered
`GLIDE_RECORD_METHODS` plus the aggregate-specific names). -/
def GLIDE_AGGREGATE_METHODS : List String :=
  GLIDE_RECORD_METHODS.filter (fun m => !(([
  "insert", "update", "deleteRecord", "deleteMultiple", "updateMultiple", "setWorkflow",
  "setAbortAction", "setForceUpdate", "canWrite", "canCreate", "canDelete", "newRecord",
  "applyTemplate"] : List String).contains m)) ++ [
  "addAggregate", "getAggregate", "groupBy", "addHaving", "addTrend", "getQuery"]

/-- servicenowDictionary.js: `GLIDE_ELEMENT_METHODS`. -/
def GLIDE_ELEMENT_METHODS : List String := [
  "getValue", "setValue", "getDisplayValue", "setDisplayValue", "getED", "getReferenceTable",
  "getRefRecord", "getJournalEntry", "changes", "changesFrom", "changesTo", "nil", "toString",
  "dateNumericValue", "setDateNumericValue", "getChoices", "getAttribute",
  "getBooleanAttribute", "getHTMLValue", "getGlideObject", "setInitialValue", "getLabel",
  "getTableName", "getName", "getTextContent", "canRead", "canWrite", "hasRightsTo",
  "setError", "setPhoneNumber"]

/-- servicenowDictionary.js: `GLIDE_DATE_TIME_METHODS`. -/
def GLIDE_DATE_TIME_METHODS : List String := [
  "addSeconds", "addMinutes", "addDays", "addDaysLocalTime", "addDaysUTC", "addMonths",
  "addMonthsLocalTime", "addMonthsUTC", "addWeeks", "addWeeksLocalTime", "addWeeksUTC",
  "addYears", "addYearsLocalTime", "addYearsUTC", "add", "getDate", "getTime", "getLocalDate",
  "getLocalTime", "getDayOfMonth", "getDayOfMonthLocalTime", "getDayOfMonthUTC",
  "getDayOfWeek", "getDayOfWeekLocalTime", "getDayOfWeekUTC", "getMonth", "getMonthLocalTime",
  "getMonthUTC", "getYear", "getYearLocalTime", "getYearUTC", "getWeekOfYear",
  "getWeekOfYearLocalTime", "getWeekOfYearUTC", "getValue", "setValue", "getDisplayValue",
  "setDisplayValue", "getDisplayValueInternal", "setDisplayValueInternal", "getNumericValue",
  "setNumericValue", "getInternalFormattedLocalTime", "setGlideDateTime", "setValueUTC",
  "compareTo", "equals", "before", "after", "onOrBefore", "onOrAfter", "subtract", "hasDate",
  "getErrorMsg", "getTZOffset", "toString"]

/-- servicenowDictionary.js: `GLIDE_DATE_METHODS`. -/
def GLIDE_DATE_METHODS : List String := [
  "getValue", "setValue", "getDisplayValue", "setDisplayValue", "getByFormat", "getDayOfMonth",
  "getDayOfMonthNoTZ", "getDayOfWeek", "getDayOfWeekNoTZ", "getMonth", "getMonthNoTZ",
  "getYear", "getYearNoTZ", "subtract", "onOrAfter", "onOrBefore"]

/-- servicenowDictionary.js: `GLIDE_TIME_METHODS`. -/
def GLIDE_TIME_METHODS : List String := [
  "getValue", "setValue", "getDisplayValue", "setDisplayValue", "getByFormat",
  "getHourLocalTime", "getHourOfDayLocalTime", "getHourOfDayUTC", "getHourUTC",
  "getMinutesLocalTime", "getMinutesUTC", "getSeconds", "subtract"]

/-- servicenowDictionary.js: `GLIDE_DURATION_METHODS`. -/
def GLIDE_DURATION_METHODS : List String := [
  "add", "getByFormat", "getDayPart", "getDurationValue", "getNumericValue",
  "getRoundedDayPart", "getValue", "setDisplayValue", "setValue", "subtract"]

/-- servicenowDictionary.js: `GLIDE_SCHEDULE_METHODS`. -/
def GLIDE_SCHEDULE_METHODS : List String := [
  "add", "duration", "getName", "isInSchedule", "isValid", "load", "setTimeZone", "whenNext"]

/-- servicenowDictionary.js: `GLIDE_SYSTEM_METHODS`. -/
def GLIDE_SYSTEM_METHODS : List String := [
  "log", "info", "debug", "warn", "error", "print", "logError", "logWarning", "addInfoMessage",
  "addErrorMessage", "getMessage", "flushMessages", "getErrorMessages", "getInfoMessages",
  "getProperty", "setProperty", "getPreference", "setPreference", "cacheFlush", "getUser",
  "getUserID", "getUserName", "getUserDisplayName", "getImpersonatingUserName", "hasRole",
  "hasRoleInGroup", "hasRoleExactly", "getSession", "getSessionID", "getSessionToken",
  "isInteractive", "isLoggedIn", "isMobile", "now", "nowDateTime", "nowNoTZ", "daysAgo",
  "daysAgoStart", "daysAgoEnd", "hoursAgo", "hoursAgoStart", "hoursAgoEnd", "minutesAgo",
  "minutesAgoStart", "minutesAgoEnd", "monthsAgo", "monthsAgoStart", "monthsAgoEnd",
  "quartersAgo", "quartersAgoStart", "quartersAgoEnd", "yearsAgo", "yearsAgoStart",
  "yearsAgoEnd", "beginningOfLastMonth", "beginningOfLastWeek", "beginningOfLastYear",
  "beginningOfNextMonth", "beginningOfNextWeek", "beginningOfNextYear", "beginningOfThisMonth",
  "beginningOfThisQuarter", "beginningOfThisWeek", "beginningOfThisYear", "beginningOfToday",
  "endOfLastMonth", "endOfLastWeek", "endOfLastYear", "endOfNextMonth", "endOfNextWeek",
  "endOfNextYear", "endOfThisMonth", "endOfThisQuarter", "endOfThisWeek", "endOfThisYear",
  "endOfToday", "dateDiff", "dateGenerate", "nil", "tableExists", "generateGUID", "eventQueue",
  "eventQueueScheduled", "workflowFlush", "include", "sleep", "urlEncode", "urlDecode",
  "xmlToJSON", "base64Encode", "base64Decode", "getDisplayColumn", "getDisplayName",
  "getEscapedProperty", "getMaxSchemaNameLength", "getNewAppScopeCompanyPrefix", "getNodeName",
  "getNodeValue", "getSysTimeZone", "setRedirect", "setReturn", "getXMLText", "getXMLNodeList",
  "getCurrentScopeName", "getCallerScopeName", "isDebugging", "getTimeZoneName",
  "getUrlOnStack", "action", "getStyle", "loadGlobalScripts", "setCurrentApplicationId"]

/-- servicenowDictionary.js: `GLIDE_USER_METHODS`. -/
def GLIDE_USER_METHODS : List String := [
  "getID", "getUserID", "getName", "getUserName", "getDisplayName", "getEmail", "getFirstName",
  "getLastName", "getFullName", "getCompanyID", "getDepartmentID", "getDomainID",
  "getLocation", "getManagerID", "getPreference", "getRecord", "getRoles", "hasRole",
  "hasRoles", "hasRoleExactly", "hasRoleInGroup", "hasRoleFromList", "isMemberOf",
  "savePreference", "setPreference"]

/-- servicenowDictionary.js: `GLIDE_SESSION_METHODS`. -/
def GLIDE_SESSION_METHODS : List String := [
  "getClientIP", "getClientData", "getCurrentApplicationId", "getCurrentApplicationScope",
  "getCurrentDomainID", "getLanguage", "getSessionToken", "getSessionID", "getTimeZoneName",
  "getUrlOnStack", "isInteractive", "isLoggedIn", "isMobile", "putClientData", "setClientData",
  "getUser", "getRoles", "isImpersonating", "clearClientData"]

/-- servicenowDictionary.js: `GLIDE_AJAX_METHODS`. -/
def GLIDE_AJAX_METHODS : List String := [
  "addParam", "getParam", "getXML", "getXMLAnswer", "getXMLWait", "getAnswer", "setScope",
  "setProcessor", "setErrorCallback", "getParameter", "getResponseValue", "newItem"]

/-- servicenowDictionary.js: `G_FORM_METHODS`. -/
def G_FORM_METHODS : List String := [
  "getValue", "setValue", "getDisplayValue", "clearValue", "getIntValue", "getBooleanValue",
  "getDecimalValue", "getActionName", "setVisible", "isVisible", "setMandatory", "isMandatory",
  "setReadOnly", "isReadOnly", "setDisabled", "isDisabled", "setDisplay", "getReference",
  "addOption", "removeOption", "clearOptions", "getOption", "getOptionControl", "showFieldMsg",
  "hideFieldMsg", "showErrorBox", "hideErrorBox", "addInfoMessage", "addErrorMessage",
  "clearMessages", "hideAllFieldMsgs", "getLabelOf", "setLabelOf", "addDecoration",
  "removeDecoration", "hideRelatedList", "hideRelatedLists", "showRelatedList",
  "showRelatedLists", "setSectionDisplay", "isSectionVisible", "activateTab",
  "getTabNameForField", "flash", "getControl", "getElement", "getFormElement",
  "getSectionNames", "getSections", "getTableName", "getUniqueValue", "hasField",
  "isNewRecord", "save", "submit", "enableAttachments", "disableAttachments", "hasAttribute",
  "removeAttribute", "addAttribute", "setScope", "refreshSlushbucket", "showRelatedLists",
  "isLiveUpdating", "registerHandler", "removeCurrentPrefix"]

/-- servicenowDictionary.js: `G_USER_METHODS`. -/
def G_USER_METHODS : List String := [
  "getClientData", "getFullName", "getName", "getUserID", "getUserName", "hasRole",
  "hasRoleExactly", "hasRoleFromList", "firstName", "lastName", "userID", "userName"]

/-- servicenowDictionary.js: `G_LIST_METHODS`. -/
def G_LIST_METHODS : List String := [
  "addFilter", "get", "getByName", "getChecked", "getFilter", "getFixedQuery", "getGroupBy",
  "getListName", "getOrderBy", "getParentTable", "getQuery", "getRelated", "getRelationshipID",
  "getTableName", "getTitle", "getView", "isUserList", "refresh", "refreshWithOrderBy",
  "setFilter", "setFilterAndRefresh", "setFirstRow", "setGroupBy", "setOrderBy", "setRelated",
  "setRows", "setRowsPerPage", "showHideGroups", "showHideList", "sort", "sortDescending",
  "toggleList", "toggleListNoPref"]

/-- servicenowDictionary.js: `REST_MESSAGE_V2_METHODS`. -/
def REST_MESSAGE_V2_METHODS : List String := [
  "execute", "executeAsync", "getEndpoint", "getRequestBody", "getRequestHeader",
  "getRequestHeaders", "setBasicAuth", "setEndpoint", "setHttpMethod", "setHttpTimeout",
  "setLogLevel", "setMIDServer", "setMutualAuth", "setQueryParameter", "setRequestBody",
  "setRequestHeader", "setStringParameter", "setStringParameterNoEscape", "setEccCorrelator",
  "setEccParameter", "setAuthenticationProfile", "setRequestBodyFromAttachment",
  "setRequestBodyFromStream", "saveResponseBodyAsAttachment", "saveResponseBodyAsStream"]

/-- servicenowDictionary.js: `REST_RESPONSE_V2_METHODS`. -/
def REST_RESPONSE_V2_METHODS : List String := [
  "getBody", "getErrorCode", "getErrorMessage", "getHeader", "getHeaders", "getQueryString",
  "getResponseAttachmentSysid", "getStatusCode", "haveError", "waitForResponse",
  "getAllHeaders"]

/-- servicenowDictionary.js: `SOAP_MESSAGE_V2_METHODS`
(`[...REST_MESSAGE_V2_METHODS, setWSSecurity, setSOAPAction]`). -/
def SOAP_MESSAGE_V2_METHODS : List String :=
  REST_MESSAGE_V2_METHODS ++ [
  "setWSSecurity", "setSOAPAction"]

/-- servicenowDictionary.js: `GLIDE_SYS_ATTACHMENT_METHODS`. -/
def GLIDE_SYS_ATTACHMENT_METHODS : List String := [
  "copy", "deleteAttachment", "getContent", "getContentBase64", "getContentStream",
  "getContentType", "getName", "getTableName", "getTableSysID", "write", "writeBase64",
  "writeContentStream", "getAttachments", "getSize"]

/-- servicenowDictionary.js: `ARRAY_UTIL_METHODS`. -/
def ARRAY_UTIL_METHODS : List String := [
  "concat", "contains", "convertArray", "diff", "ensure", "indexOf", "intersect", "union",
  "unique"]

/-- servicenowDictionary.js: `XML_DOCUMENT_2_METHODS`. -/
def XML_DOCUMENT_2_METHODS : List String := [
  "createElement", "createElementWithTextValue", "getDocument", "getDocumentElement",
  "getFirstNode", "getNextNode", "getNode", "getNodeText", "parseXML", "selectNodes",
  "selectSingleNode", "setCurrentElement", "toString", "getText", "getNodes", "getElements",
  "getNodeAttribute", "isValid"]

/-- servicenowDictionary.js: `XML_NODE_METHODS`. -/
def XML_NODE_METHODS : List String := [
  "getAttribute", "getAttributes", "getChildNodeIterator", "getFirstChild", "getLastChild",
  "getNodeName", "getNodeValue", "getTextContent", "hasAttribute", "setAttribute", "toString",
  "appendChild", "getOwnerDocument"]

/-- servicenowDictionary.js: `GLIDE_EMAIL_OUTBOUND_METHODS`. -/
def GLIDE_EMAIL_OUTBOUND_METHODS : List String := [
  "addAddress", "addRecipient", "getBody", "getSubject", "getWatermark", "save", "setBody",
  "setFrom", "setReplyTo", "setSubject", "send", "addAttachment"]

/-- servicenowDictionary.js: `WORKFLOW_METHODS`. -/
def WORKFLOW_METHODS : List String := [
  "broadcastEvent", "cancel", "deleteWorkflow", "fireEvent", "fireEventById", "getContexts",
  "getEstimatedDeliveryTime", "getEstimatedDeliveryTimeFromWFVersion", "getReturnValue",
  "getRunningFlows", "getVersion", "getVersionFromName", "getWorkflowFromName", "hasWorkflow",
  "restartWorkflow", "runFlows", "startFlow", "startFlowFromContextInsert",
  "startFlowRetroactive"]

/-- servicenowDictionary.js: `GLIDE_SCOPED_EVALUATOR_METHODS`. -/
def GLIDE_SCOPED_EVALUATOR_METHODS : List String := [
  "evaluateScript", "getVariable", "putVariable"]

/-- servicenowDictionary.js: `GLIDE_FILTER_METHODS`. -/
def GLIDE_FILTER_METHODS : List String := [
  "checkRecord", "get"]

/-- servicenowDictionary.js: `GLIDE_QUERY_METHODS`. -/
def GLIDE_QUERY_METHODS : List String := [
  "select", "selectOne", "where", "whereNull", "whereNotNull", "orWhere", "orWhereNull",
  "orWhereNotNull", "orderBy", "orderByDesc", "limit", "disableWorkflow", "forceUpdate",
  "insert", "update", "updateMultiple", "deleteMultiple", "get", "getBy", "toGlideRecord",
  "aggregate", "avg", "count", "max", "min", "sum", "groupBy", "having", "parse", "withAcls"]

/-- servicenowDictionary.js: `GLIDE_QUERY_CONDITION_METHODS`. -/
def GLIDE_QUERY_CONDITION_METHODS : List String := [
  "addCondition", "addOrCondition"]

/-- servicenowDictionary.js: `GLIDE_TABLE_HIERARCHY_METHODS`. -/
def GLIDE_TABLE_HIERARCHY_METHODS : List String := [
  "getAllExtensions", "getBase", "getHierarchy", "getName", "getRoot", "getTableExtensions",
  "getTables", "hasExtensions", "isBaseClass", "isSoloClass"]

/-- servicenowDictionary.js: `GLIDE_PLUGIN_MANAGER_METHODS`. -/
def GLIDE_PLUGIN_MANAGER_METHODS : List String := [
  "isActive", "isInstalled", "isUpgradeSystemBusy"]

/-- servicenowDictionary.js: `GLIDE_SECURE_RANDOM_METHODS`. -/
def GLIDE_SECURE_RANDOM_METHODS : List String := [
  "getSecureRandomInt", "getSecureRandomIntBound", "getSecureRandomLong",
  "getSecureRandomString"]

/-- servicenowDictionary.js: `GLIDE_DIGEST_METHODS`. -/
def GLIDE_DIGEST_METHODS : List String := [
  "getMD5Base64", "getMD5Hex", "getMD5HexFromBase64", "getSHA1Base64", "getSHA1Hex",
  "getSHA256Base64", "getSHA256Hex"]

/-- servicenowDictionary.js: `GLIDE_ENCRYPTER_METHODS`. -/
def GLIDE_ENCRYPTER_METHODS : List String := [
  "decrypt", "encrypt"]

/-- servicenowDictionary.js: `TEMPLATE_PRINTER_METHODS`. -/
def TEMPLATE_PRINTER_METHODS : List String := [
  "print", "space"]

/-- servicenowDictionary.js: `SCRIPTED_PROCESSOR_METHODS`. -/
def SCRIPTED_PROCESSOR_METHODS : List String := [
  "redirect", "writeOutput"]

/-- servicenowDictionary.js: `GLIDE_DB_FUNCTION_BUILDER_METHODS`. -/
def GLIDE_DB_FUNCTION_BUILDER_METHODS : List String := [
  "add", "build", "concat", "constant", "coalesce", "dayofweek", "divide", "field", "length",
  "lowercase", "multiply", "position", "subtract", "substring", "uppercase"]

/-- servicenowDictionary.js: `SP_METHODS`. -/
def SP_METHODS : List String := [
  "canReadRecord", "canSeePage", "getCatalogItem", "getDisplayValue", "getField", "getFields",
  "getFieldsObject", "getForm", "getKBCategoryArticles", "getKBCount", "getKBRecord",
  "getKBSiblingCategories", "getKBTopCategoryID", "getListColumns", "getMenuHREF",
  "getMenuItems", "getParameter", "getPortalRecord", "getRecord", "getRecordDisplayValues",
  "getRecordElements", "getRecordValues", "getRelatedList", "getSCRecord", "getStream",
  "getValues", "getWidget", "getWidgetFromInstance", "getWidgetParameters", "getWidgetScope",
  "logStat", "mapRecordToUIAction", "showCatalogPrices", "translateTemplate"]

/-- servicenowDictionary.js: `SP_UTIL_METHODS`. -/
def SP_UTIL_METHODS : List String := [
  "addErrorMessage", "addInfoMessage", "addTrivialMessage", "createUid", "format", "get",
  "getPreference", "parseAttributes", "recordWatch", "refresh", "scrollTo", "setBreadCrumb",
  "setPreference", "setSearchPage", "update"]

/-- servicenowDictionary.js: `FLOW_API_METHODS`. -/
def FLOW_API_METHODS : List String := [
  "cancel", "executeAction", "executeFlow", "executeSubflow", "getRunner", "hasAction",
  "hasFlow", "hasSubflow", "startAsync"]

/-- servicenowDictionary.js: `GLIDE_OAUTH_CLIENT_METHODS`. -/
def GLIDE_OAUTH_CLIENT_METHODS : List String := [
  "getToken", "requestToken", "requestTokenByRequest", "revokeToken"]

/-- servicenowDictionary.js: `GLIDE_OAUTH_CLIENT_REQUEST_METHODS`. -/
def GLIDE_OAUTH_CLIENT_REQUEST_METHODS : List String := [
  "getGrantType", "getHeader", "getHeaders", "getParameter", "getParameters", "getPassword",
  "getRefreshToken", "getScope", "getUserName", "setGrantType", "setHeader", "setParameter",
  "setPassword", "setRefreshToken", "setScope", "setUserName"]

/-- servicenowDictionary.js: `GLIDE_OAUTH_CLIENT_RESPONSE_METHODS`. -/
def GLIDE_OAUTH_CLIENT_RESPONSE_METHODS : List String := [
  "getAccessToken", "getAccessTokenExpiresIn", "getAccessTokenScopeValue", "getBody",
  "getErrorMessage", "getRefreshToken", "getRefreshTokenExpiresIn", "getResponseCode",
  "getResponseParameters", "getToken"]

/-- servicenowDictionary.js: `GLIDE_EXCEL_PARSER_METHODS`. -/
def GLIDE_EXCEL_PARSER_METHODS : List String := [
  "close", "getColumnHeaders", "getColumnValues", "getErrorMessage", "getRow", "getSheetNames",
  "next", "parse", "setHeaderRowNumber", "setNullToEmpty", "setSheetName", "setSheetNumber"]

/-- servicenowDictionary.js: `GLIDE_STRING_UTIL_METHODS`. -/
def GLIDE_STRING_UTIL_METHODS : List String := [
  "base64Decode", "base64DecodeAsBytes", "base64Encode", "dotToUnderBar", "escapeAllQuotes",
  "escapeForHomePage", "escapeHTML", "escapeNonPrintable", "escapeTicks", "getNumeric",
  "getStringFromStream", "isBase64", "isEligibleSysID", "newLinesToBreaks",
  "normalizeWhitespace", "unescapeHTML", "urlDecode", "urlEncode"]

/-- servicenowDictionary.js: `CLASS_NAMES`. -/
def CLASS_NAMES : List String := [
  "GlideRecord", "GlideRecordSecure", "GlideAggregate", "GlideElement", "GlideQuery",
  "GlideQueryCondition", "GlideElementDescriptor", "GlideDateTime", "GlideDate", "GlideTime",
  "GlideDuration", "GlideSchedule", "GlideCalendarDateTime", "GlideUser", "GlideSession",
  "GlideAjax", "GlideHTTPRequest", "GlideHTTPResponse", "RESTMessageV2", "RESTResponseV2",
  "SOAPMessageV2", "SOAPResponseV2", "GlideSysAttachment", "GlideSysAttachmentInputStream",
  "XMLDocument2", "XMLDocument", "XMLNode", "XMLNodeIterator", "GlideEmailOutbound",
  "ArrayUtil", "GlideStringUtil", "GlideXMLUtil", "GlideFilter", "GlideTableHierarchy",
  "GlideScopedEvaluator", "JSUtil", "TableUtils", "J2js", "GlideRecordUtil",
  "GlideSecureRandom", "GlideSecureRandomUtil", "GlideDigest", "GlideEncrypter",
  "GlideCertificateEncryption", "CertificateEncryption", "GlidePluginManager",
  "GlideDBFunctionBuilder", "Workflow", "FlowAPI", "sn_fd", "FlowScriptAPI",
  "GlideOAuthClient", "GlideOAuthClientRequest", "GlideOAuthClientResponse", "GlideOAuthToken",
  "GlideExcelParser", "GlideImportLog", "GlideImportSetRun", "GlideImportSetTransformer",
  "TemplatePrinter", "GlideLocale", "JSON", "AbstractAjaxProcessor", "GlideEvaluator",
  "GlideUpdateManager", "GlideUpdateSet", "GlideImpersonate", "GlideAppLoader", "GlideChoice",
  "GlideScriptedProcessor", "GlideServletRequest", "GlideServletResponse", "GlideSPScriptable",
  "GlideScriptedExtensionPoint", "GlideScriptableInputStream", "GlideMultiRecurrence",
  "GlideApplicationProperty", "GlideCurrencyConfig", "GlideEventManager", "GlideJsonPath",
  "SNC", "GlideForm", "GlideList2", "GlideDialogWindow", "GlideDialogForm", "GlideModal",
  "GlideAjax"]

/-- servicenowDictionary.js: `CONTEXT_METHOD_MAP`, as an association list in
source order (all keys are distinct, so list lookup coincides with JS object
property access on own keys). -/
def CONTEXT_METHOD_MAP : List (String × List String) := [
  ("GlideRecord", GLIDE_RECORD_METHODS),
  ("GlideRecordSecure", GLIDE_RECORD_METHODS),
  ("GlideAggregate", GLIDE_AGGREGATE_METHODS),
  ("GlideElement", GLIDE_ELEMENT_METHODS),
  ("GlideQuery", GLIDE_QUERY_METHODS),
  ("GlideQueryCondition", GLIDE_QUERY_CONDITION_METHODS),
  ("GlideDateTime", GLIDE_DATE_TIME_METHODS),
  ("GlideDate", GLIDE_DATE_METHODS),
  ("GlideTime", GLIDE_TIME_METHODS),
  ("GlideDuration", GLIDE_DURATION_METHODS),
  ("GlideSchedule", GLIDE_SCHEDULE_METHODS),
  ("GlideUser", GLIDE_USER_METHODS),
  ("GlideSession", GLIDE_SESSION_METHODS),
  ("GlideAjax", GLIDE_AJAX_METHODS),
  ("GlideSysAttachment", GLIDE_SYS_ATTACHMENT_METHODS),
  ("ArrayUtil", ARRAY_UTIL_METHODS),
  ("XMLDocument2", XML_DOCUMENT_2_METHODS),
  ("XMLDocument", XML_DOCUMENT_2_METHODS),
  ("XMLNode", XML_NODE_METHODS),
  ("GlideEmailOutbound", GLIDE_EMAIL_OUTBOUND_METHODS),
  ("RESTMessageV2", REST_MESSAGE_V2_METHODS),
  ("RESTResponseV2", REST_RESPONSE_V2_METHODS),
  ("SOAPMessageV2", SOAP_MESSAGE_V2_METHODS),
  ("Workflow", WORKFLOW_METHODS),
  ("GlideScopedEvaluator", GLIDE_SCOPED_EVALUATOR_METHODS),
  ("GlideFilter", GLIDE_FILTER_METHODS),
  ("GlideTableHierarchy", GLIDE_TABLE_HIERARCHY_METHODS),
  ("GlidePluginManager", GLIDE_PLUGIN_MANAGER_METHODS),
  ("GlideSecureRandom", GLIDE_SECURE_RANDOM_METHODS),
  ("GlideSecureRandomUtil", GLIDE_SECURE_RANDOM_METHODS),
  ("GlideDigest", GLIDE_DIGEST_METHODS),
  ("GlideEncrypter", GLIDE_ENCRYPTER_METHODS),
  ("TemplatePrinter", TEMPLATE_PRINTER_METHODS),
  ("AbstractAjaxProcessor", GLIDE_AJAX_METHODS),
  ("GlideDBFunctionBuilder", GLIDE_DB_FUNCTION_BUILDER_METHODS),
  ("$sp", SP_METHODS),
  ("GlideSPScriptable", SP_METHODS),
  ("FlowAPI", FLOW_API_METHODS),
  ("GlideOAuthClient", GLIDE_OAUTH_CLIENT_METHODS),
  ("GlideOAuthClientRequest", GLIDE_OAUTH_CLIENT_REQUEST_METHODS),
  ("GlideOAuthClientResponse", GLIDE_OAUTH_CLIENT_RESPONSE_METHODS),
  ("GlideExcelParser", GLIDE_EXCEL_PARSER_METHODS),
  ("GlideStringUtil", GLIDE_STRING_UTIL_METHODS),
  ("gs", GLIDE_SYSTEM_METHODS),
  ("g_form", G_FORM_METHODS),
  ("g_user", G_USER_METHODS),
  ("g_list", G_LIST_METHODS),
  ("GlideList2", G_LIST_METHODS),
  ("spUtil", SP_UTIL_METHODS),
  ("g_processor", SCRIPTED_PROCESSOR_METHODS),
  ("current", GLIDE_RECORD_METHODS),
  ("previous", GLIDE_RECORD_METHODS),
  ("email", GLIDE_EMAIL_OUTBOUND_METHODS)]

/-- The component lists spread into `ALL_METHODS`, in source order (note:
`SOAP_MESSAGE_V2_METHODS` is absent from the source spread). -/
def allMethodsComponents : List (List String) := [
  GLIDE_RECORD_METHODS,
  GLIDE_AGGREGATE_METHODS,
  GLIDE_ELEMENT_METHODS,
  GLIDE_DATE_TIME_METHODS,
  GLIDE_DATE_METHODS,
  GLIDE_TIME_METHODS,
  GLIDE_DURATION_METHODS,
  GLIDE_SCHEDULE_METHODS,
  GLIDE_SYSTEM_METHODS,
  GLIDE_USER_METHODS,
  GLIDE_SESSION_METHODS,
  GLIDE_AJAX_METHODS,
  G_FORM_METHODS,
  G_USER_METHODS,
  G_LIST_METHODS,
  REST_MESSAGE_V2_METHODS,
  REST_RESPONSE_V2_METHODS,
  GLIDE_SYS_ATTACHMENT_METHODS,
  ARRAY_UTIL_METHODS,
  XML_DOCUMENT_2_METHODS,
  XML_NODE_METHODS,
  GLIDE_EMAIL_OUTBOUND_METHODS,
  WORKFLOW_METHODS,
  GLIDE_SCOPED_EVALUATOR_METHODS,
  GLIDE_FILTER_METHODS,
  GLIDE_QUERY_METHODS,
  GLIDE_QUERY_CONDITION_METHODS,
  GLIDE_TABLE_HIERARCHY_METHODS,
  GLIDE_PLUGIN_MANAGER_METHODS,
  GLIDE_SECURE_RANDOM_METHODS,
  GLIDE_DIGEST_METHODS,
  GLIDE_ENCRYPTER_METHODS,
  TEMPLATE_PRINTER_METHODS,
  SCRIPTED_PROCESSOR_METHODS,
  GLIDE_DB_FUNCTION_BUILDER_METHODS,
  SP_METHODS,
  SP_UTIL_METHODS,
  FLOW_API_METHODS,
  GLIDE_OAUTH_CLIENT_METHODS,
  GLIDE_OAUTH_CLIENT_REQUEST_METHODS,
  GLIDE_OAUTH_CLIENT_RESPONSE_METHODS,
  GLIDE_EXCEL_PARSER_METHODS,
  GLIDE_STRING_UTIL_METHODS]

/-- servicenowDictionary.js: `ALL_METHODS = [...new Set([...A, ...B, ...])]`:
the concatenation of the component lists, de-duplicated keeping first
occurrences (JS `Set` insertion order). -/
def ALL_METHODS : List String := jsSetDedup allMethodsComponents.flatten


/-!
### Type inference (fuzzyMatcher.js 115-164)

The three inference regexes and the two scanner regexes of `analyzeCode` are
simple enough that greedy matching is deterministic (every `\s*`/`\s+`/`\w+`
is followed by a character class disjoint from the repeated one, so the JS
backtracking engine can only ever succeed with the maximal runs taken here).
A `g`-regex `exec` loop is modelled by `scanAllF`: it tries the pattern at
every position, and after a hit resumes immediately after the matched text
(`lastIndex = index + length`), exactly like `RegExp.prototype.exec`.
-/

/-- Strip a literal prefix; `none` when `l` does not start with it. -/
def stripLit : List Char → List Char → Option (List Char)
  | [], l => some l
  | _ :: _, [] => none
  | c :: cs, x :: xs => if x = c then stripLit cs xs else none

/-- `\b` holds before a word character iff the previous character (if any) is
not a word character. -/
def atWordBoundary : Option Char → Bool
  | none => true
  | some c => !isWordChar c

/-- Runs a pattern matcher at every position (earliest match wins) and resumes
after each match, like a `g`-regex `exec` loop.  Yields
`(match index, payload, match length)` triples in order.  `fuel` bounds the
number of steps; every step consumes at least one character for the patterns
used here (they all end in a literal `(`), so `fuel = input length` is exact. -/
def scanAllF {M : Type} (tryM : Option Char → List Char → Option (M × Nat)) :
    Nat → Option Char → Nat → List Char → List (Nat × M × Nat)
  | 0, _, _, _ => []
  | _ + 1, _, _, [] => []
  | fuel + 1, prev, pos, c :: rest =>
    match tryM prev (c :: rest) with
    | none => scanAllF tryM fuel (some c) (pos + 1) rest
    | some (m, len) =>
      (pos, m, len) ::
        scanAllF tryM fuel (some ((c :: rest).getD (len - 1) c)) (pos + len)
          ((c :: rest).drop len)

/-- `(?:var|let|const)` tried in the regex alternation order. -/
def tryKeyword (l : List Char) : Option (List Char) :=
  match stripLit "var".toList l with
  | some r => some r
  | none =>
    match stripLit "let".toList l with
    | some r => some r
    | none => stripLit "const".toList l

/-- The shared prefix `(?:var|let|const)\s+(\w+)\s*=\s*` of the three
inference regexes; returns the captured variable name and the rest. -/
def tryDeclFront (l : List Char) : Option (List Char × List Char) :=
  match tryKeyword l with
  | none => none
  | some l1 =>
    if (l1.takeWhile isSpaceChar).isEmpty then none
    else
      let l2 := l1.dropWhile isSpaceChar
      let vn := l2.takeWhile isWordChar
      if vn.isEmpty then none
      else
        match stripLit ['='] ((l2.dropWhile isWordChar).dropWhile isSpaceChar) with
        | none => none
        | some l4 => some (vn, l4.dropWhile isSpaceChar)

/-- `newPattern = /(?:var|let|const)\s+(\w+)\s*=\s*new\s+(\w+)\s*\(/g`
(fuzzyMatcher.js 119); payload is `(varName, className)`. -/
def tryMatchNewVar (_prev : Option Char) (l : List Char) :
    Option ((String × String) × Nat) :=
  match tryDeclFront l with
  | none => none
  | some (vn, l1) =>
    match stripLit "new".toList l1 with
    | none => none
    | some l2 =>
      if (l2.takeWhile isSpaceChar).isEmpty then none
      else
        let l3 := l2.dropWhile isSpaceChar
        let cn := l3.takeWhile isWordChar
        if cn.isEmpty then none
        else
          match stripLit ['('] ((l3.dropWhile isWordChar).dropWhile isSpaceChar) with
          | none => none
          | some l5 => some ((String.mk vn, String.mk cn), l.length - l5.length)

/-- `getUserPattern` / `getSessionPattern` (fuzzyMatcher.js 131, 137):
`(?:var|let|const)\s+(\w+)\s*=\s*<lit>\s*\(` with `lit` the literal
`gs.getUser` resp. `gs.getSession`; payload is the variable name. -/
def tryMatchFactory (lit : List Char) (_prev : Option Char) (l : List Char) :
    Option (String × Nat) :=
  match tryDeclFront l with
  | none => none
  | some (vn, l1) =>
    match stripLit lit l1 with
    | none => none
    | some l2 =>
      match stripLit ['('] (l2.dropWhile isSpaceChar) with
      | none => none
      | some l3 => some (String.mk vn, l.length - l3.length)

/-- `classPattern = /\bnew\s+([A-Z]\w*)\s*\(/g` (fuzzyMatcher.js 318);
payload is the captured class name. -/
def tryMatchClass (prev : Option Char) (l : List Char) : Option (String × Nat) :=
  if !atWordBoundary prev then none
  else
    match stripLit "new".toList l with
    | none => none
    | some l1 =>
      if (l1.takeWhile isSpaceChar).isEmpty then none
      else
        match l1.dropWhile isSpaceChar with
        | [] => none
        | c :: l2 =>
          if !c.isUpper then none
          else
            match stripLit ['('] ((l2.dropWhile isWordChar).dropWhile isSpaceChar) with
            | none => none
            | some l4 =>
              some (String.mk (c :: l2.takeWhile isWordChar), l.length - l4.length)

/-- `methodPattern = /(\b\w+)\.(\w+)\s*\(/g` (fuzzyMatcher.js 352);
payload is `(receiver, methodName)`. -/
def tryMatchMethod (prev : Option Char) (l : List Char) :
    Option ((String × String) × Nat) :=
  if !atWordBoundary prev then none
  else
    let r1 := l.takeWhile isWordChar
    if r1.isEmpty then none
    else
      match stripLit ['.'] (l.dropWhile isWordChar) with
      | none => none
      | some l1 =>
        let r2 := l1.takeWhile isWordChar
        if r2.isEmpty then none
        else
          match stripLit ['('] ((l1.dropWhile isWordChar).dropWhile isSpaceChar) with
          | none => none
          | some l3 => some ((String.mk r1, String.mk r2), l.length - l3.length)

/-- `Map.prototype.set`: replace in place if the key exists, else append. -/
def mapSet : List (String × String) → String → String → List (String × String)
  | [], k, v => [(k, v)]
  | (k0, v0) :: rest, k, v =>
    if k0 = k then (k0, v) :: rest else (k0, v0) :: mapSet rest k v

/-- `Map.prototype.get` (and `has` via `isSome`). -/
def mapGet : List (String × String) → String → Option String
  | [], _ => none
  | (k0, v0) :: rest, k => if k0 = k then some v0 else mapGet rest k

/-- `inferVariableTypes` (fuzzyMatcher.js 115-143): the three `exec` loops in
source order, feeding a JS `Map` (last write wins for a rebound name). -/
def inferVariableTypes (code : String) : List (String × String) :=
  let cs := code.toList
  let m1 := (scanAllF tryMatchNewVar cs.length none 0 cs).foldl
    (fun tm r =>
      match r with
      | (_, (varName, className), _) =>
        if className ∈ CLASS_NAMES then mapSet tm varName className else tm) []
  let m2 := (scanAllF (tryMatchFactory "gs.getUser".toList) cs.length none 0 cs).foldl
    (fun tm r => mapSet tm r.2.1 "GlideUser") m1
  (scanAllF (tryMatchFactory "gs.getSession".toList) cs.length none 0 cs).foldl
    (fun tm r => mapSet tm r.2.1 "GlideSession") m2

/-- Own-key lookup in `CONTEXT_METHOD_MAP` (the JS `CONTEXT_METHOD_MAP[k]`;
every stored value is an array, hence truthy, so JS truthiness of the access
coincides with `isSome`). -/
def cmLookup (k : String) : Option (List String) := List.lookup k CONTEXT_METHOD_MAP

/-- `getReceiverType` (fuzzyMatcher.js 152-164): hardcoded globals first, then
the inferred type map, else `null`. -/
def getReceiverType (receiver : String) (typeMap : List (String × String)) :
    Option String :=
  if (cmLookup receiver).isSome then some receiver
  else mapGet typeMap receiver

/-!
### Exact similarity scores

JS similarity scores are real numbers of the form `1 - d / m`.  We model them
exactly as unreduced fractions with comparisons by cross-multiplication (the
comparisons below agree with the real-number comparisons JS performs; every
denominator constructed by the engine is positive — a zero denominator would
require comparing two empty strings, which the exact-membership early return
of `findBestMatch` makes unreachable).
-/

/-- An exact (unreduced) fraction `num / den`. -/
structure Frac where
  num : Int
  den : Nat
deriving DecidableEq, Repr

instance : OfNat Frac n := ⟨⟨n, 1⟩⟩

/-- Embeds a natural number. -/
def Frac.ofNat (n : Nat) : Frac := ⟨n, 1⟩

/-- Real subtraction `a - b`. -/
def Frac.sub (a b : Frac) : Frac := ⟨a.num * b.den - b.num * a.den, a.den * b.den⟩

/-- Real division by a natural number, `a / m`. -/
def Frac.divNat (a : Frac) (m : Nat) : Frac := ⟨a.num, a.den * m⟩

/-- Real comparison `a < b` (cross-multiplication; dens positive in use). -/
def Frac.lt (a b : Frac) : Prop := a.num * b.den < b.num * a.den

/-- Real comparison `a ≤ b` (cross-multiplication; dens positive in use). -/
def Frac.le (a b : Frac) : Prop := a.num * b.den ≤ b.num * a.den

/-- Real equality `a = b` as values (cross-multiplication). -/
def Frac.eqv (a b : Frac) : Prop := a.num * b.den = b.num * a.den

instance (a b : Frac) : Decidable (Frac.lt a b) :=
  inferInstanceAs (Decidable (a.num * b.den < b.num * a.den))

instance (a b : Frac) : Decidable (Frac.le a b) :=
  inferInstanceAs (Decidable (a.num * b.den ≤ b.num * a.den))

instance (a b : Frac) : Decidable (Frac.eqv a b) :=
  inferInstanceAs (Decidable (a.num * b.den = b.num * a.den))

/-!
### Fuzzy matching (`findBestMatch`, fuzzyMatcher.js 188-286)
-/

/-- The confidence tiers (`'high' | 'medium' | 'low'`). -/
inductive Confidence
  | high
  | medium
  | low
deriving DecidableEq, Repr

/-- The `CONFIG` constants (fuzzyMatcher.js 23-39); the decimal literals
`0.70, 0.08, 0.85, 0.75, 0.65` are the exact fractions below. -/
def CONFIG.maxEditDistance : Nat := 2

def CONFIG.minSimilarity : Frac := ⟨7, 10⟩

def CONFIG.minMargin : Frac := ⟨2, 25⟩

def CONFIG.highMaxDistance : Nat := 1

def CONFIG.highMinSimilarity : Frac := ⟨17, 20⟩

def CONFIG.mediumMaxDistance : Nat := 2

def CONFIG.mediumMinSimilarity : Frac := ⟨3, 4⟩

def CONFIG.lowMaxDistance : Nat := 2

def CONFIG.lowMinSimilarity : Frac := ⟨13, 20⟩

/-- JS truthiness of a nullable string: non-null and non-empty. -/
def jsTruthyOptStr : Option String → Bool
  | none => false
  | some s => s != ""

/-- The mutable loop state of `findBestMatch` (fuzzyMatcher.js 201-204);
`bestDistance` starts at `Infinity`, modelled by `⊤ : ℕ∞`. -/
structure MatchState where
  bestMatch : Option String
  bestDistance : ℕ∞
  bestSimilarity : Frac
  secondBestSimilarity : Frac
deriving DecidableEq

/-- One iteration of the candidate loop (fuzzyMatcher.js 208-227): length
pruning, distance on the lower-cased strings, similarity
`1 - distance / max(len)`, and the best/second-best bookkeeping. -/
def stepCandidate (identifier : String) (s : MatchState) (validName : String) :
    MatchState :=
  if CONFIG.maxEditDistance < ((identifier.length : Int) - (validName.length : Int)).natAbs then s
  else
    let distance := damerauLevenshteinDistance (jsToLower identifier) (jsToLower validName)
    let similarity : Frac :=
      Frac.sub 1 ((Frac.ofNat distance).divNat (max identifier.length validName.length))
    if s.bestSimilarity.lt similarity then
      { bestMatch := some validName, bestDistance := (distance : ℕ∞),
        bestSimilarity := similarity, secondBestSimilarity := s.bestSimilarity }
    else if s.secondBestSimilarity.lt similarity then
      { s with secondBestSimilarity := similarity }
    else s

/-- The confidence/auto-fix decision (fuzzyMatcher.js 232-250): the global
floor `bestMatch && bestDistance <= maxEditDistance && bestSimilarity >=
minSimilarity`, the margin gate, then the high/medium/low tier cascade. -/
def evalConfidence (bestMatch : Option String) (bestDistance : ℕ∞)
    (bestSimilarity margin : Frac) : Option Confidence × Bool :=
  if jsTruthyOptStr bestMatch ∧ bestDistance ≤ (CONFIG.maxEditDistance : ℕ∞) ∧
      CONFIG.minSimilarity.le bestSimilarity then
    if CONFIG.minMargin.le margin then
      if bestDistance ≤ (CONFIG.highMaxDistance : ℕ∞) ∧
          CONFIG.highMinSimilarity.le bestSimilarity then
        (some Confidence.high, true)
      else if bestDistance ≤ (CONFIG.mediumMaxDistance : ℕ∞) ∧
          CONFIG.mediumMinSimilarity.le bestSimilarity then
        (some Confidence.medium, true)
      else if bestDistance ≤ (CONFIG.lowMaxDistance : ℕ∞) ∧
          CONFIG.lowMinSimilarity.le bestSimilarity then
        (some Confidence.low, false)
      else (none, false)
    else (none, false)
  else (none, false)

/-- The result record of `findBestMatch` (fuzzyMatcher.js 170-179); the field
`match` is a Lean keyword, embedded as `match_`. -/
structure FuzzyMatchResult where
  match_ : Option String
  distance : ℕ∞
  similarity : Frac
  margin : Frac
  confidence : Option Confidence
  shouldAutoFix : Bool
deriving DecidableEq

/-- The candidate loop of `findBestMatch` (fuzzyMatcher.js 201-227), from the
initial state `bestMatch = null`, `bestDistance = Infinity`,
`bestSimilarity = secondBestSimilarity = 0`. -/
def findBestMatchLoop (identifier : String) (dictionary : List String) : MatchState :=
  dictionary.foldl (stepCandidate identifier)
    { bestMatch := none, bestDistance := ⊤, bestSimilarity := 0,
      secondBestSimilarity := 0 }

/-- Assembles the returned record of `findBestMatch` (fuzzyMatcher.js
229-259) from the final loop state: `margin = best - secondBest`, the
confidence decision, and `match: confidence ? bestMatch : null` (the
confidence strings are non-empty, so their JS truthiness is `isSome`). -/
def assembleResult (s : MatchState) : FuzzyMatchResult :=
  let margin := s.bestSimilarity.sub s.secondBestSimilarity
  let cf := evalConfidence s.bestMatch s.bestDistance s.bestSimilarity margin
  { match_ := if cf.1.isSome then s.bestMatch else none,
    distance := s.bestDistance, similarity := s.bestSimilarity,
    margin := margin, confidence := cf.1, shouldAutoFix := cf.2 }

/-- `findBestMatch` (fuzzyMatcher.js 188-260). -/
def findBestMatch (identifier : String) (dictionary : List String) :
    FuzzyMatchResult :=
  if identifier ∈ dictionary then
    { match_ := some identifier, distance := 0, similarity := 1, margin := 1,
      confidence := none, shouldAutoFix := false }
  else assembleResult (findBestMatchLoop identifier dictionary)

/-- `findBestClassMatch` (fuzzyMatcher.js 268-270). -/
def findBestClassMatch (className : String) : FuzzyMatchResult :=
  findBestMatch className CLASS_NAMES

/-- The dictionary selection `contextType && CONTEXT_METHOD_MAP[contextType]
? CONTEXT_METHOD_MAP[contextType] : ALL_METHODS` (fuzzyMatcher.js 281-283 and,
verbatim again, 361-363). -/
def dictForContext (contextType : Option String) : List String :=
  match contextType with
  | none => ALL_METHODS
  | some ct =>
    if ct = "" then ALL_METHODS
    else
      match cmLookup ct with
      | some d => d
      | none => ALL_METHODS

/-- `findBestMethodMatch` (fuzzyMatcher.js 279-286). -/
def findBestMethodMatch (methodName : String) (contextType : Option String) :
    FuzzyMatchResult :=
  findBestMatch methodName (dictForContext contextType)

/-!
### Code correction (`analyzeCode` etc., fuzzyMatcher.js 310-464)
-/

/-- The `type` discriminator of a correction (`'class' | 'method'`); `class`
is a Lean keyword, embedded as `cls`. -/
inductive CorrectionKind
  | cls
  | method
deriving DecidableEq, Repr

/-- A correction record (fuzzyMatcher.js 292-302, including the extra
`distance`/`similarity` fields pushed by `analyzeCode`). -/
structure Correction where
  original : String
  corrected : String
  startIndex : Nat
  endIndex : Nat
  confidence : Confidence
  type : CorrectionKind
  context : Option String
  distance : ℕ∞
  similarity : Frac
deriving DecidableEq

/-- The body of the class-instantiation loop of `analyzeCode`
(fuzzyMatcher.js 321-348) for one `classPattern` match; `some (c, b)` is a
correction routed by `b = result.shouldAutoFix`, `none` means nothing pushed. -/
def processClassMatch (cs : List Char) (item : Nat × String × Nat) :
    Option (Correction × Bool) :=
  match item with
  | (pos, className, len) =>
    if className ∈ CLASS_NAMES then none
    else
      let result := findBestClassMatch className
      match result.match_, result.confidence with
      | some m, some conf =>
        if m = "" then none
        else
          let startIndex :=
            pos + (subIndexOf ((cs.drop pos).take len) className.toList).getD 0
          some ({ original := className, corrected := m, startIndex := startIndex,
                  endIndex := startIndex + className.length, confidence := conf,
                  type := CorrectionKind.cls, context := none,
                  distance := result.distance, similarity := result.similarity },
                result.shouldAutoFix)
      | _, _ => none

/-- The body of the method-call loop of `analyzeCode` (fuzzyMatcher.js
354-391) for one `methodPattern` match. -/
def processMethodMatch (typeMap : List (String × String))
    (item : Nat × (String × String) × Nat) : Option (Correction × Bool) :=
  match item with
  | (pos, (receiver, methodName), _) =>
    let contextType := getReceiverType receiver typeMap
    let dictionary := dictForContext contextType
    if methodName ∈ dictionary then none
    else
      let result := findBestMethodMatch methodName contextType
      match result.match_, result.confidence with
      | some m, some conf =>
        if m = "" then none
        else
          let methodStartIndex := pos + receiver.length + 1
          some ({ original := methodName, corrected := m,
                  startIndex := methodStartIndex,
                  endIndex := methodStartIndex + methodName.length,
                  confidence := conf, type := CorrectionKind.method,
                  context := contextType, distance := result.distance,
                  similarity := result.similarity },
                result.shouldAutoFix)
      | _, _ => none

/-- Insertion step of the stable descending-by-`startIndex` sort. -/
def insertDesc (x : Correction) : List Correction → List Correction
  | [] => [x]
  | y :: ys => if y.startIndex ≤ x.startIndex then x :: y :: ys else y :: insertDesc x ys

/-- `arr.sort((a, b) => b.startIndex - a.startIndex)` (fuzzyMatcher.js
394-395): JS `sort` is stable, and this insertion sort computes exactly the
stable non-increasing reordering. -/
def sortDescByStart (l : List Correction) : List Correction := l.foldr insertDesc []

/-- The two scan loops of `analyzeCode`, in source order (all class
corrections, then all method corrections), each still paired with its
`shouldAutoFix` routing flag. -/
def analyzeItems (code : String) : List (Correction × Bool) :=
  let cs := code.toList
  let typeMap := inferVariableTypes code
  ((scanAllF tryMatchClass cs.length none 0 cs).filterMap (processClassMatch cs)) ++
    ((scanAllF tryMatchMethod cs.length none 0 cs).filterMap (processMethodMatch typeMap))

/-- The result of `analyzeCode`. -/
structure AnalyzeResult where
  corrections : List Correction
  suggestions : List Correction
deriving DecidableEq

/-- `analyzeCode` (fuzzyMatcher.js 310-398): route by `shouldAutoFix`, then
sort both lists by descending `startIndex`. -/
def analyzeCode (code : String) : AnalyzeResult :=
  let items := analyzeItems code
  { corrections := sortDescByStart ((items.filter (fun p => p.2)).map Prod.fst),
    suggestions := sortDescByStart ((items.filter (fun p => !p.2)).map Prod.fst) }

/-- `applyCorrections` (fuzzyMatcher.js 407-418): splice each correction into
the running text, in the given (descending) order. -/
def applyCorrections (code : String) (corrections : List Correction) : String :=
  corrections.foldl
    (fun result c =>
      strTake result c.startIndex ++ c.corrected ++ strDrop result c.endIndex)
    code

/-- The result of `fuzzyCorrectCode`. -/
structure FuzzyOutput where
  processed : String
  fixes : List String
  suggestions : List String
deriving DecidableEq

/-- `fuzzyCorrectCode` (fuzzyMatcher.js 426-464). -/
def fuzzyCorrectCode (code : String) : FuzzyOutput :=
  let res := analyzeCode code
  let processed := applyCorrections code res.corrections
  let highConfidence := res.corrections.filter (fun c => c.confidence == Confidence.high)
  let mediumConfidence := res.corrections.filter (fun c => c.confidence == Confidence.medium)
  let fixes :=
    (if 0 < highConfidence.length then
      ["Fixed " ++ toString highConfidence.length ++ " typo(s): " ++
        String.intercalate ", "
          (jsSetDedup (highConfidence.map (fun c => c.original ++ " → " ++ c.corrected)))]
    else []) ++
    (if 0 < mediumConfidence.length then
      ["Auto-corrected " ++ toString mediumConfidence.length ++ " likely typo(s): " ++
        String.intercalate ", "
          (jsSetDedup (mediumConfidence.map (fun c => c.original ++ " → " ++ c.corrected)))]
    else [])
  { processed := processed, fixes := fixes,
    suggestions := res.suggestions.map (fun s =>
      "Possible typo: \"" ++ s.original ++ "\" - did you mean \"" ++ s.corrected ++ "\"?") }


/-!
### Reference recurrence for the edit-distance matrix

`dSpec la lb fuel i j` is the textbook recurrence satisfied by the JS matrix
entry `d[i][j]` (fuel-indexed so the recursion is structural; any
`fuel > i + j` computes the true value).  It is used only in proofs, to relate
the imperative row-by-row fill above to a form amenable to induction.
-/

/-- The recurrence satisfied by the JS matrix entries (proof-side reference). -/
def dSpec (la lb : List Char) : Nat → Nat → Nat → Nat
  | 0, _, _ => 0
  | _ + 1, 0, j => j
  | _ + 1, i + 1, 0 => i + 1
  | fuel + 1, i + 1, j + 1 =>
    let cost : Nat := if la.getD i ' ' = lb.getD j ' ' then 0 else 1
    let base :=
      min (min (dSpec la lb fuel i (j + 1) + 1) (dSpec la lb fuel (i + 1) j + 1))
        (dSpec la lb fuel i j + cost)
    if 0 < i ∧ 0 < j ∧ la.getD i ' ' = lb.getD (j - 1) ' ' ∧
        la.getD (i - 1) ' ' = lb.getD j ' ' then
      min base (dSpec la lb fuel (i - 1) (j - 1) + cost)
    else base

/-- The true matrix value `d[i][j]` (canonical fuel). -/
def dVal (la lb : List Char) (i j : Nat) : Nat := dSpec la lb (i + j + 1) i j


/-- The method correction that `analyzeCode` produces for `gr.adQuery(` in the
example input `var gr = new GlideRecord(a); gr.gtValue(b); gr.adQuery(c);`
(used as a concrete instance in witnesses). -/
def adQueryCorrection : Correction :=
  { original := "adQuery", corrected := "addQuery", startIndex := 47, endIndex := 54,
    confidence := Confidence.high, type := CorrectionKind.method,
    context := some "GlideRecord", distance := ((1 : Nat) : ℕ∞), similarity := ⟨7, 8⟩ }

/-- The low-confidence suggestion that `analyzeCode` produces for `gr.hasnt(`
in the example input `var gr = new GlideRecord(a); gr.hasnt(b);` (used as a
concrete instance in witnesses). -/
def hasntSuggestion : Correction :=
  { original := "hasnt", corrected := "hasNext", startIndex := 32, endIndex := 37,
    confidence := Confidence.low, type := CorrectionKind.method,
    context := some "GlideRecord", distance := ((2 : Nat) : ℕ∞), similarity := ⟨5, 7⟩ }

/-!
## Theorems

First the relation between the imperative matrix fill and the reference
recurrence `dSpec`, leading to symmetry of the edit distance.
-/

theorem dSpec_fuel_irrel (la lb : List Char) :
    ∀ f1 f2 i j, i + j < f1 → i + j < f2 →
      dSpec la lb f1 i j = dSpec la lb f2 i j := by
  intro f1
  induction f1 with
  | zero => intro f2 i j h1 _; omega
  | succ f ih =>
    intro f2 i j h1 h2
    match f2, i, j with
    | 0, i, j => omega
    | g + 1, 0, j => rfl
    | g + 1, i + 1, 0 => rfl
    | g + 1, i + 1, j + 1 =>
      simp only [dSpec]
      rw [ih g i (j + 1) (by omega) (by omega),
        ih g (i + 1) j (by omega) (by omega),
        ih g i j (by omega) (by omega),
        ih g (i - 1) (j - 1) (by omega) (by omega)]

theorem dVal_zero_left (la lb : List Char) (j : Nat) : dVal la lb 0 j = j := rfl

theorem dVal_zero_right (la lb : List Char) (i : Nat) : dVal la lb i 0 = i := by
  cases i <;> rfl

theorem dVal_succ (la lb : List Char) (i j : Nat) :
    dVal la lb (i + 1) (j + 1) =
      (if 0 < i ∧ 0 < j ∧ la.getD i ' ' = lb.getD (j - 1) ' ' ∧
          la.getD (i - 1) ' ' = lb.getD j ' ' then
        min
          (min (min (dVal la lb i (j + 1) + 1) (dVal la lb (i + 1) j + 1))
            (dVal la lb i j + if la.getD i ' ' = lb.getD j ' ' then 0 else 1))
          (dVal la lb (i - 1) (j - 1) + if la.getD i ' ' = lb.getD j ' ' then 0 else 1)
      else
        min (min (dVal la lb i (j + 1) + 1) (dVal la lb (i + 1) j + 1))
          (dVal la lb i j + if la.getD i ' ' = lb.getD j ' ' then 0 else 1)) := by
  show dSpec la lb (i + 1 + (j + 1) + 1) (i + 1) (j + 1) = _
  have h3 : i + 1 + (j + 1) + 1 = (i + j + 2) + 1 := by omega
  rw [h3]
  simp only [dSpec]
  rw [dSpec_fuel_irrel la lb (i + j + 2) (i + (j + 1) + 1) i (j + 1) (by omega) (by omega),
    dSpec_fuel_irrel la lb (i + j + 2) (i + 1 + j + 1) (i + 1) j (by omega) (by omega),
    dSpec_fuel_irrel la lb (i + j + 2) (i + j + 1) i j (by omega) (by omega),
    dSpec_fuel_irrel la lb (i + j + 2) (i - 1 + (j - 1) + 1) (i - 1) (j - 1) (by omega)
      (by omega)]
  rfl

theorem dCell_eq_dVal (la lb : List Char) (i j : Nat) (hi : 1 ≤ i) (hj : 1 ≤ j)
    (pp p curr : List Nat)
    (hpp : 1 < i → pp.getD (j - 2) 0 = dVal la lb (i - 2) (j - 2))
    (hpj : p.getD j 0 = dVal la lb (i - 1) j)
    (hpj1 : p.getD (j - 1) 0 = dVal la lb (i - 1) (j - 1))
    (hcurr : curr.getD (j - 1) 0 = dVal la lb i (j - 1)) :
    dCell la lb i j pp p curr = dVal la lb i j := by
  obtain ⟨i, rfl⟩ : ∃ it, i = it + 1 := ⟨i - 1, by omega⟩
  obtain ⟨j, rfl⟩ : ∃ jt, j = jt + 1 := ⟨j - 1, by omega⟩
  have e1 : i + 1 - 1 = i := by omega
  have e2 : j + 1 - 1 = j := by omega
  have e3 : j + 1 - 2 = j - 1 := by omega
  have e4 : i + 1 - 2 = i - 1 := by omega
  have e5 : (1 < i + 1) = (0 < i) := by
    apply propext; omega
  have e6 : (1 < j + 1) = (0 < j) := by
    apply propext; omega
  rw [dVal_succ]
  simp only [dCell, e1, e2, e3, e4, e5, e6] at *
  rw [hpj, hpj1, hcurr]
  by_cases h : 0 < i ∧ 0 < j ∧ la.getD i ' ' = lb.getD (j - 1) ' ' ∧
      la.getD (i - 1) ' ' = lb.getD j ' '
  · rw [if_pos h, if_pos h, hpp h.1]
  · rw [if_neg h, if_neg h]

theorem rowCells_correct (la lb : List Char) (i : Nat) (hi : 1 ≤ i) (pp p : List Nat)
    (hpp : 1 < i → ∀ k, k ≤ lb.length → pp.getD k 0 = dVal la lb (i - 2) k)
    (hp : ∀ k, k ≤ lb.length → p.getD k 0 = dVal la lb (i - 1) k) :
    ∀ fuel j curr, 1 ≤ j → j + fuel = lb.length + 1 → curr.length = j →
      (∀ k, k < j → curr.getD k 0 = dVal la lb i k) →
      ∀ k, k ≤ lb.length → (rowCells la lb i pp p curr j fuel).getD k 0 = dVal la lb i k := by
  intro fuel
  induction fuel with
  | zero =>
    intro j curr hj hjf hlen hcurr k hk
    simp only [rowCells]
    exact hcurr k (by omega)
  | succ fuel ih =>
    intro j curr hj hjf hlen hcurr k hk
    simp only [rowCells]
    have hcell : dCell la lb i j pp p curr = dVal la lb i j := by
      apply dCell_eq_dVal la lb i j hi hj pp p curr
      · intro h1i
        exact hpp h1i (j - 2) (by omega)
      · exact hp j (by omega)
      · exact hp (j - 1) (by omega)
      · exact hcurr (j - 1) (by omega)
    apply ih (j + 1) (curr ++ [dCell la lb i j pp p curr]) (by omega) (by omega)
    · simp [hlen]
    · intro k2 hk2
      by_cases hk2j : k2 < j
      · rw [List.getD_append _ _ _ _ (by omega)]
        exact hcurr k2 hk2j
      · have hk2e : k2 = j := by omega
        subst hk2e
        rw [List.getD_append_right _ _ _ _ (by omega)]
        simp only [hlen, Nat.sub_self, List.getD]
        simpa using hcell
    · exact hk

theorem rowsLoop_correct (la lb : List Char) :
    ∀ fuel i pp p, 1 ≤ i →
      (1 < i → ∀ k, k ≤ lb.length → pp.getD k 0 = dVal la lb (i - 2) k) →
      (∀ k, k ≤ lb.length → p.getD k 0 = dVal la lb (i - 1) k) →
      ∀ k, k ≤ lb.length →
        (rowsLoop la lb pp p i fuel).getD k 0 = dVal la lb (i - 1 + fuel) k := by
  intro fuel
  induction fuel with
  | zero =>
    intro i pp p hi hpp hp k hk
    simp only [rowsLoop]
    exact hp k hk
  | succ fuel ih =>
    intro i pp p hi hpp hp k hk
    simp only [rowsLoop]
    have hrow : ∀ k2, k2 ≤ lb.length →
        (rowCells la lb i pp p [i] 1 lb.length).getD k2 0 = dVal la lb i k2 := by
      apply rowCells_correct la lb i hi pp p hpp hp lb.length 1 [i] (by omega) (by omega) rfl
      intro k2 hk2
      have hk2e : k2 = 0 := by omega
      subst hk2e
      simp [List.getD, dVal_zero_right]
    have := ih (i + 1) p (rowCells la lb i pp p [i] 1 lb.length) (by omega)
      (fun _ k2 hk2 => by simpa using hp k2 hk2) hrow k hk
    have he : i + 1 - 1 + fuel = i - 1 + (fuel + 1) := by omega
    rw [he] at this
    exact this

theorem dMatrixFinal_eq (la lb : List Char) :
    dMatrixFinal la lb = dVal la lb la.length lb.length := by
  unfold dMatrixFinal
  have h0 : ∀ k, k ≤ lb.length → (List.range (lb.length + 1)).getD k 0 = dVal la lb 0 k := by
    intro k hk
    rw [dVal_zero_left]
    simp [List.getD_eq_getElem?_getD, List.getElem?_range (by omega : k < lb.length + 1)]
  have := rowsLoop_correct la lb la.length 1 [] (List.range (lb.length + 1)) (by omega)
    (by omega) (by simpa using h0) lb.length (by omega)
  simpa using this

theorem dSpec_symm (la lb : List Char) :
    ∀ fuel i j, dSpec la lb fuel i j = dSpec lb la fuel j i := by
  intro fuel
  induction fuel with
  | zero => intro i j; rfl
  | succ f ih =>
    intro i j
    match i, j with
    | 0, 0 => rfl
    | 0, j + 1 => rfl
    | i + 1, 0 => rfl
    | i + 1, j + 1 =>
      simp only [dSpec]
      rw [← ih (i + 1) j, ← ih i (j + 1), ← ih i j, ← ih (i - 1) (j - 1)]
      have hcost : (if lb.getD j ' ' = la.getD i ' ' then (0 : Nat) else 1)
          = (if la.getD i ' ' = lb.getD j ' ' then (0 : Nat) else 1) := by
        by_cases h : la.getD i ' ' = lb.getD j ' '
        · rw [if_pos h, if_pos h.symm]
        · rw [if_neg h, if_neg (fun hc => h hc.symm)]
      rw [hcost]
      have hcond : (0 < j ∧ 0 < i ∧ lb.getD j ' ' = la.getD (i - 1) ' ' ∧
            lb.getD (j - 1) ' ' = la.getD i ' ')
          ↔ (0 < i ∧ 0 < j ∧ la.getD i ' ' = lb.getD (j - 1) ' ' ∧
            la.getD (i - 1) ' ' = lb.getD j ' ') := by
        constructor
        · rintro ⟨h1, h2, h3, h4⟩
          exact ⟨h2, h1, h4.symm, h3.symm⟩
        · rintro ⟨h1, h2, h3, h4⟩
          exact ⟨h2, h1, h4.symm, h3.symm⟩
      rw [if_congr hcond rfl rfl]
      rw [Nat.min_comm (dSpec la lb f i (j + 1) + 1) (dSpec la lb f (i + 1) j + 1)]

theorem damerauLevenshteinDistance_symm (a b : String) :
    damerauLevenshteinDistance a b = damerauLevenshteinDistance b a := by
  unfold damerauLevenshteinDistance
  by_cases hab : a = b
  · subst hab; rfl
  · have hba : ¬b = a := fun h => hab h.symm
    rw [if_neg hab, if_neg hba]
    by_cases ha : a.length = 0
    · by_cases hb : b.length = 0
      · exfalso
        apply hab
        cases a with
        | mk da =>
          cases b with
          | mk db =>
            have hda : da = [] := List.length_eq_zero.mp ha
            have hdb : db = [] := List.length_eq_zero.mp hb
            simp [hda, hdb]
      · rw [if_pos ha, if_neg hb, if_pos ha]
    · rw [if_neg ha]
      by_cases hb : b.length = 0
      · rw [if_pos hb, if_pos hb]
      · rw [if_neg hb, if_neg hb, if_neg ha]
        rw [dMatrixFinal_eq, dMatrixFinal_eq]
        unfold dVal
        have hlen1 : a.toList.length + b.toList.length + 1
            = b.toList.length + a.toList.length + 1 := by omega
        rw [hlen1]
        exact dSpec_symm a.toList b.toList (b.toList.length + a.toList.length + 1)
          a.toList.length b.toList.length


/-!
### Helper lemmas on de-duplication, maps and the matcher
-/

theorem mem_foldl_dedup (a : String) :
    ∀ (l acc : List String),
      a ∈ l.foldl (fun acc x => if x ∈ acc then acc else acc ++ [x]) acc ↔
        a ∈ acc ∨ a ∈ l := by
  intro l
  induction l with
  | nil => intro acc; simp
  | cons x xs ih =>
    intro acc
    simp only [List.foldl_cons, ih]
    by_cases hx : x ∈ acc
    · rw [if_pos hx]
      constructor
      · rintro (h | h)
        · exact Or.inl h
        · exact Or.inr (List.mem_cons_of_mem x h)
      · rintro (h | h)
        · exact Or.inl h
        · rcases List.mem_cons.mp h with rfl | h
          · exact Or.inl hx
          · exact Or.inr h
    · rw [if_neg hx]
      simp only [List.mem_append, List.mem_singleton, List.mem_cons]
      tauto

theorem mem_jsSetDedup (a : String) (l : List String) : a ∈ jsSetDedup l ↔ a ∈ l := by
  unfold jsSetDedup
  rw [mem_foldl_dedup]
  simp

theorem mem_ALL_METHODS_of_component {m : String} {l : List String}
    (hl : l ∈ allMethodsComponents) (hm : m ∈ l) : m ∈ ALL_METHODS := by
  unfold ALL_METHODS
  rw [mem_jsSetDedup]
  exact List.mem_flatten.mpr ⟨l, hl, hm⟩

theorem mem_mapSet (k v : String) :
    ∀ (tm : List (String × String)) (k0 v0 : String),
      (k, v) ∈ mapSet tm k0 v0 → (k, v) ∈ tm ∨ v = v0 := by
  intro tm
  induction tm with
  | nil =>
    intro k0 v0 h
    simp only [mapSet, List.mem_singleton] at h
    exact Or.inr (congrArg Prod.snd h)
  | cons p rest ih =>
    intro k0 v0 h
    obtain ⟨k1, v1⟩ := p
    simp only [mapSet] at h
    by_cases he : k1 = k0
    · rw [if_pos he] at h
      rcases List.mem_cons.mp h with h | h
      · exact Or.inr (congrArg Prod.snd h)
      · exact Or.inl (List.mem_cons_of_mem _ h)
    · rw [if_neg he] at h
      rcases List.mem_cons.mp h with h | h
      · exact Or.inl (h ▸ List.mem_cons_self _ _)
      · rcases ih k0 v0 h with h | h
        · exact Or.inl (List.mem_cons_of_mem _ h)
        · exact Or.inr h

theorem foldl_preserve {α β : Type} (P : β → Prop) (f : β → α → β)
    (hstep : ∀ b a, P b → P (f b a)) :
    ∀ (l : List α) (b : β), P b → P (l.foldl f b) := by
  intro l
  induction l with
  | nil => intro b hb; exact hb
  | cons x xs ih => intro b hb; exact ih (f b x) (hstep b x hb)

theorem inferVariableTypes_values (code : String) (k v : String)
    (h : (k, v) ∈ inferVariableTypes code) : v ∈ CLASS_NAMES := by
  unfold inferVariableTypes at h
  set P : List (String × String) → Prop :=
    fun tm => ∀ k2 v2, (k2, v2) ∈ tm → v2 ∈ CLASS_NAMES with hP
  have h3 : P (inferVariableTypes code) := by
    unfold inferVariableTypes
    apply foldl_preserve P
    · intro tm r htm k2 v2 hmem
      rcases mem_mapSet k2 v2 tm r.2.1 "GlideSession" hmem with hmem | rfl
      · exact htm k2 v2 hmem
      · decide
    · apply foldl_preserve P
      · intro tm r htm k2 v2 hmem
        rcases mem_mapSet k2 v2 tm r.2.1 "GlideUser" hmem with hmem | rfl
        · exact htm k2 v2 hmem
        · decide
      · apply foldl_preserve P
        · intro tm r htm k2 v2 hmem
          obtain ⟨pos, ⟨varName, className⟩, len⟩ := r
          simp only at hmem
          by_cases hc : className ∈ CLASS_NAMES
          · rw [if_pos hc] at hmem
            rcases mem_mapSet k2 v2 tm varName className hmem with hmem | rfl
            · exact htm k2 v2 hmem
            · exact hc
          · rw [if_neg hc] at hmem
            exact htm k2 v2 hmem
        · intro k2 v2 hmem
          simp at hmem
  exact h3 k v h

theorem evalConfidence_cases (bm : Option String) (bd : ℕ∞) (bs mg : Frac) :
    evalConfidence bm bd bs mg = (none, false) ∨
    evalConfidence bm bd bs mg = (some Confidence.high, true) ∨
    evalConfidence bm bd bs mg = (some Confidence.medium, true) ∨
    evalConfidence bm bd bs mg = (some Confidence.low, false) := by
  unfold evalConfidence
  split_ifs <;> simp

theorem evalConfidence_some_gate (bm : Option String) (bd : ℕ∞) (bs mg : Frac)
    (c : Confidence) (h : (evalConfidence bm bd bs mg).1 = some c) :
    bd ≤ (CONFIG.maxEditDistance : ℕ∞) ∧ CONFIG.minSimilarity.le bs ∧
      CONFIG.minMargin.le mg := by
  unfold evalConfidence at h
  split_ifs at h with h1 h2 h3 h4 h5 <;>
    first
      | exact ⟨h1.2.1, h1.2.2, h2⟩
      | simp at h

theorem assembleResult_confidence (s : MatchState) :
    (assembleResult s).confidence =
      (evalConfidence s.bestMatch s.bestDistance s.bestSimilarity
        (s.bestSimilarity.sub s.secondBestSimilarity)).1 := rfl

theorem assembleResult_shouldAutoFix (s : MatchState) :
    (assembleResult s).shouldAutoFix =
      (evalConfidence s.bestMatch s.bestDistance s.bestSimilarity
        (s.bestSimilarity.sub s.secondBestSimilarity)).2 := rfl

theorem assembleResult_match (s : MatchState) :
    (assembleResult s).match_ =
      if (assembleResult s).confidence.isSome then s.bestMatch else none := rfl

theorem findBestMatch_conf_autofix (identifier : String) (dictionary : List String) :
    ((findBestMatch identifier dictionary).confidence = none ∧
      (findBestMatch identifier dictionary).shouldAutoFix = false) ∨
    ((findBestMatch identifier dictionary).confidence = some Confidence.high ∧
      (findBestMatch identifier dictionary).shouldAutoFix = true) ∨
    ((findBestMatch identifier dictionary).confidence = some Confidence.medium ∧
      (findBestMatch identifier dictionary).shouldAutoFix = true) ∨
    ((findBestMatch identifier dictionary).confidence = some Confidence.low ∧
      (findBestMatch identifier dictionary).shouldAutoFix = false) := by
  unfold findBestMatch
  by_cases hmem : identifier ∈ dictionary
  · rw [if_pos hmem]
    left
    exact ⟨rfl, rfl⟩
  · rw [if_neg hmem]
    set s := findBestMatchLoop identifier dictionary
    rcases evalConfidence_cases s.bestMatch s.bestDistance s.bestSimilarity
        (s.bestSimilarity.sub s.secondBestSimilarity) with h | h | h | h <;>
      rw [assembleResult_confidence, assembleResult_shouldAutoFix, h] <;> simp

theorem findBestMatch_gate (identifier : String) (dictionary : List String)
    (hmem : identifier ∉ dictionary) (m : String)
    (h : (findBestMatch identifier dictionary).match_ = some m) :
    (findBestMatch identifier dictionary).distance ≤ (CONFIG.maxEditDistance : ℕ∞) ∧
      CONFIG.minSimilarity.le (findBestMatch identifier dictionary).similarity ∧
      CONFIG.minMargin.le (findBestMatch identifier dictionary).margin := by
  unfold findBestMatch at h ⊢
  rw [if_neg hmem] at h ⊢
  set s := findBestMatchLoop identifier dictionary
  rw [assembleResult_match, assembleResult_confidence] at h
  by_cases hc : (evalConfidence s.bestMatch s.bestDistance s.bestSimilarity
      (s.bestSimilarity.sub s.secondBestSimilarity)).1.isSome
  · obtain ⟨c, hc2⟩ := Option.isSome_iff_exists.mp hc
    have hgate := evalConfidence_some_gate s.bestMatch s.bestDistance s.bestSimilarity
      (s.bestSimilarity.sub s.secondBestSimilarity) c hc2
    exact ⟨hgate.1, hgate.2.1, hgate.2.2⟩
  · rw [if_neg hc] at h
    simp at h

theorem findBestMatch_none_of_conf_none (identifier : String) (dictionary : List String)
    (hmem : identifier ∉ dictionary)
    (h : (findBestMatch identifier dictionary).confidence = none) :
    (findBestMatch identifier dictionary).match_ = none := by
  unfold findBestMatch at h ⊢
  rw [if_neg hmem] at h ⊢
  rw [assembleResult_match, h]
  rfl


/-!
### Helper lemmas on sorting and the two analysis loops
-/

theorem mem_insertDesc (x a : Correction) :
    ∀ l : List Correction, a ∈ insertDesc x l ↔ a = x ∨ a ∈ l := by
  intro l
  induction l with
  | nil => simp [insertDesc]
  | cons y ys ih =>
    simp only [insertDesc]
    by_cases hle : y.startIndex ≤ x.startIndex
    · rw [if_pos hle]
      simp [List.mem_cons]
    · rw [if_neg hle]
      simp only [List.mem_cons, ih]
      tauto

theorem mem_sortDescByStart (a : Correction) :
    ∀ l : List Correction, a ∈ sortDescByStart l ↔ a ∈ l := by
  intro l
  induction l with
  | nil => simp [sortDescByStart]
  | cons x xs ih =>
    show a ∈ insertDesc x (sortDescByStart xs) ↔ _
    rw [mem_insertDesc, ih]
    simp [List.mem_cons]

theorem sorted_insertDesc (x : Correction) :
    ∀ l : List Correction,
      List.Sorted (fun a b : Correction => b.startIndex ≤ a.startIndex) l →
      List.Sorted (fun a b : Correction => b.startIndex ≤ a.startIndex) (insertDesc x l) := by
  intro l
  induction l with
  | nil => intro _; simp [insertDesc]
  | cons y ys ih =>
    intro h
    rw [List.sorted_cons] at h
    simp only [insertDesc]
    by_cases hle : y.startIndex ≤ x.startIndex
    · rw [if_pos hle]
      rw [List.sorted_cons]
      constructor
      · intro b hb
        rcases List.mem_cons.mp hb with rfl | hb
        · exact hle
        · exact le_trans (h.1 b hb) hle
      · rw [List.sorted_cons]
        exact h
    · rw [if_neg hle]
      rw [List.sorted_cons]
      constructor
      · intro b hb
        rcases (mem_insertDesc x b ys).mp hb with rfl | hb
        · exact le_of_lt (Nat.lt_of_not_le hle)
        · exact h.1 b hb
      · exact ih h.2

theorem sorted_sortDescByStart :
    ∀ l : List Correction,
      List.Sorted (fun a b : Correction => b.startIndex ≤ a.startIndex)
        (sortDescByStart l) := by
  intro l
  induction l with
  | nil => simp [sortDescByStart]
  | cons x xs ih => exact sorted_insertDesc x (sortDescByStart xs) ih

theorem processClassMatch_inv (cs : List Char) (item : Nat × String × Nat)
    (c : Correction) (b : Bool) (h : processClassMatch cs item = some (c, b)) :
    c.type = CorrectionKind.cls ∧ c.original ∉ CLASS_NAMES ∧
      ∃ conf, (findBestClassMatch c.original).confidence = some conf ∧
        c.confidence = conf ∧ b = (findBestClassMatch c.original).shouldAutoFix := by
  obtain ⟨pos, className, len⟩ := item
  simp only [processClassMatch] at h
  by_cases hc : className ∈ CLASS_NAMES
  · rw [if_pos hc] at h
    simp at h
  · rw [if_neg hc] at h
    split at h
    next m conf hm hconf =>
      by_cases hme : m = ""
      · rw [if_pos hme] at h
        simp at h
      · rw [if_neg hme] at h
        simp only [Option.some.injEq, Prod.mk.injEq] at h
        obtain ⟨hcor, hb⟩ := h
        subst hcor
        exact ⟨rfl, hc, conf, hconf, rfl, hb.symm⟩
    next => simp at h

theorem processMethodMatch_inv (tm : List (String × String))
    (item : Nat × (String × String) × Nat) (c : Correction) (b : Bool)
    (h : processMethodMatch tm item = some (c, b)) :
    c.type = CorrectionKind.method ∧ c.original ∉ dictForContext c.context ∧
      ∃ conf, (findBestMethodMatch c.original c.context).confidence = some conf ∧
        c.confidence = conf ∧
        b = (findBestMethodMatch c.original c.context).shouldAutoFix := by
  obtain ⟨pos, ⟨receiver, methodName⟩, len⟩ := item
  simp only [processMethodMatch] at h
  by_cases hd : methodName ∈ dictForContext (getReceiverType receiver tm)
  · rw [if_pos hd] at h
    simp at h
  · rw [if_neg hd] at h
    split at h
    next m conf hm hconf =>
      by_cases hme : m = ""
      · rw [if_pos hme] at h
        simp at h
      · rw [if_neg hme] at h
        simp only [Option.some.injEq, Prod.mk.injEq] at h
        obtain ⟨hcor, hb⟩ := h
        subst hcor
        exact ⟨rfl, hd, conf, hconf, rfl, hb.symm⟩
    next => simp at h

theorem analyzeItems_inv (code : String) (c : Correction) (b : Bool)
    (h : (c, b) ∈ analyzeItems code) :
    (b = true → c.confidence = Confidence.high ∨ c.confidence = Confidence.medium) ∧
      (b = false → c.confidence = Confidence.low) ∧
      (c.type = CorrectionKind.cls → c.original ∉ CLASS_NAMES) ∧
      (c.type = CorrectionKind.method → c.original ∉ dictForContext c.context) := by
  unfold analyzeItems at h
  have hconf : ∃ conf : Confidence, c.confidence = conf ∧
      ((conf = Confidence.high ∧ b = true) ∨ (conf = Confidence.medium ∧ b = true) ∨
        (conf = Confidence.low ∧ b = false)) ∧
      (c.type = CorrectionKind.cls → c.original ∉ CLASS_NAMES) ∧
      (c.type = CorrectionKind.method → c.original ∉ dictForContext c.context) := by
    rcases List.mem_append.mp h with h2 | h2
    · obtain ⟨item, _, heq⟩ := List.mem_filterMap.mp h2
      obtain ⟨htype, horig, conf, hsome, hcc, hb⟩ := processClassMatch_inv _ item c b heq
      refine ⟨conf, hcc, ?_, fun _ => horig, fun hm => ?_⟩
      · rcases findBestMatch_conf_autofix c.original CLASS_NAMES with
          ⟨h1, _⟩ | ⟨h1, h2b⟩ | ⟨h1, h2b⟩ | ⟨h1, h2b⟩ <;>
          rw [show findBestClassMatch c.original
              = findBestMatch c.original CLASS_NAMES from rfl] at hsome hb
        · rw [h1] at hsome; simp at hsome
        · rw [h1] at hsome; rw [h2b] at hb
          exact Or.inl ⟨(Option.some.injEq _ _ ▸ hsome).symm, hb⟩
        · rw [h1] at hsome; rw [h2b] at hb
          exact Or.inr (Or.inl ⟨(Option.some.injEq _ _ ▸ hsome).symm, hb⟩)
        · rw [h1] at hsome; rw [h2b] at hb
          exact Or.inr (Or.inr ⟨(Option.some.injEq _ _ ▸ hsome).symm, hb⟩)
      · rw [htype] at hm
        simp at hm
    · obtain ⟨item, _, heq⟩ := List.mem_filterMap.mp h2
      obtain ⟨htype, horig, conf, hsome, hcc, hb⟩ := processMethodMatch_inv _ item c b heq
      refine ⟨conf, hcc, ?_, fun hk => ?_, fun _ => horig⟩
      · rcases findBestMatch_conf_autofix c.original (dictForContext c.context) with
          ⟨h1, _⟩ | ⟨h1, h2b⟩ | ⟨h1, h2b⟩ | ⟨h1, h2b⟩ <;>
          rw [show findBestMethodMatch c.original c.context
              = findBestMatch c.original (dictForContext c.context) from rfl] at hsome hb
        · rw [h1] at hsome; simp at hsome
        · rw [h1] at hsome; rw [h2b] at hb
          exact Or.inl ⟨(Option.some.injEq _ _ ▸ hsome).symm, hb⟩
        · rw [h1] at hsome; rw [h2b] at hb
          exact Or.inr (Or.inl ⟨(Option.some.injEq _ _ ▸ hsome).symm, hb⟩)
        · rw [h1] at hsome; rw [h2b] at hb
          exact Or.inr (Or.inr ⟨(Option.some.injEq _ _ ▸ hsome).symm, hb⟩)
      · rw [htype] at hk
        simp at hk
  obtain ⟨conf, hcc, hcases, hcls, hmeth⟩ := hconf
  refine ⟨?_, ?_, hcls, hmeth⟩
  · intro hb
    rcases hcases with ⟨rfl, _⟩ | ⟨rfl, _⟩ | ⟨rfl, hb2⟩
    · exact Or.inl hcc
    · exact Or.inr hcc
    · rw [hb] at hb2; simp at hb2
  · intro hb
    rcases hcases with ⟨rfl, hb2⟩ | ⟨rfl, hb2⟩ | ⟨rfl, _⟩
    · rw [hb] at hb2; simp at hb2
    · rw [hb] at hb2; simp at hb2
    · exact hcc

theorem analyzeCode_corrections_conf (code : String) (c : Correction)
    (h : c ∈ (analyzeCode code).corrections) :
    c.confidence = Confidence.high ∨ c.confidence = Confidence.medium := by
  unfold analyzeCode at h
  simp only at h
  rw [mem_sortDescByStart] at h
  obtain ⟨p, hp, hfst⟩ := List.mem_map.mp h
  obtain ⟨hpmem, hp2⟩ := List.mem_filter.mp hp
  obtain ⟨c2, b2⟩ := p
  simp only at hfst hp2
  subst hfst
  exact (analyzeItems_inv code c2 b2 hpmem).1 hp2

theorem analyzeCode_suggestions_conf (code : String) (c : Correction)
    (h : c ∈ (analyzeCode code).suggestions) : c.confidence = Confidence.low := by
  unfold analyzeCode at h
  simp only at h
  rw [mem_sortDescByStart] at h
  obtain ⟨p, hp, hfst⟩ := List.mem_map.mp h
  obtain ⟨hpmem, hp2⟩ := List.mem_filter.mp hp
  obtain ⟨c2, b2⟩ := p
  simp only [Bool.not_eq_true'] at hp2
  simp only at hfst
  subst hfst
  exact (analyzeItems_inv code c2 b2 hpmem).2.1 hp2

theorem analyzeCode_original_not_valid (code : String) (c : Correction)
    (h : c ∈ (analyzeCode code).corrections ∨ c ∈ (analyzeCode code).suggestions) :
    (c.type = CorrectionKind.cls → c.original ∉ CLASS_NAMES) ∧
      (c.type = CorrectionKind.method → c.original ∉ dictForContext c.context) := by
  have hmem : ∃ b, (c, b) ∈ analyzeItems code := by
    rcases h with h | h <;>
      · unfold analyzeCode at h
        simp only at h
        rw [mem_sortDescByStart] at h
        obtain ⟨p, hp, hfst⟩ := List.mem_map.mp h
        obtain ⟨hpmem, _⟩ := List.mem_filter.mp hp
        obtain ⟨c2, b2⟩ := p
        simp only at hfst
        subst hfst
        exact ⟨b2, hpmem⟩
  obtain ⟨b, hb⟩ := hmem
  exact ⟨(analyzeItems_inv code c b hb).2.2.1, (analyzeItems_inv code c b hb).2.2.2⟩


theorem fuzzyCorrectCode_no_corrections (p : String)
    (h : (analyzeCode p).corrections = []) :
    (fuzzyCorrectCode p).processed = p ∧ (fuzzyCorrectCode p).fixes = [] := by
  unfold fuzzyCorrectCode
  simp only [h]
  exact ⟨rfl, rfl⟩

/-!
## Claim theorems
-/

/-- C1: for every identifier and dictionary not containing it exactly, a
non-null `findBestMatch` match satisfies the global floor
`distance ≤ maxEditDistance (2)`, `similarity ≥ minSimilarity (0.70)` and
`margin ≥ minMargin (0.08)`; with no qualifying tier (`confidence = none`)
the match is null even if some candidate had the lowest distance; and for the
probe `abcf` against two candidates `abcd`, `abce` equidistant at distance 1
with equal lengths, the margin is 0 and no auto-fixable match is returned. -/
theorem C1_match_respects_floor_and_margin :
    (∀ (identifier : String) (dictionary : List String), identifier ∉ dictionary →
      ∀ m : String, (findBestMatch identifier dictionary).match_ = some m →
        (findBestMatch identifier dictionary).distance ≤ (CONFIG.maxEditDistance : ℕ∞) ∧
        CONFIG.minSimilarity.le (findBestMatch identifier dictionary).similarity ∧
        CONFIG.minMargin.le (findBestMatch identifier dictionary).margin) ∧
    (∀ (identifier : String) (dictionary : List String), identifier ∉ dictionary →
      (findBestMatch identifier dictionary).confidence = none →
      (findBestMatch identifier dictionary).match_ = none) ∧
    ((findBestMatch "abcf" ["abcd", "abce"]).match_ = none ∧
      (findBestMatch "abcf" ["abcd", "abce"]).margin.eqv 0 ∧
      (findBestMatch "abcf" ["abcd", "abce"]).shouldAutoFix = false) :=
  ⟨findBestMatch_gate, findBestMatch_none_of_conf_none,
    by decide, by decide, by decide⟩

/-- C1 witness: the floor holds at the concrete hit `gtValue → getValue`, and
the null-match clause at a probe with no candidate in range. -/
theorem C1_match_respects_floor_and_margin_witness :
    ((findBestMatch "gtValue" ["getValue"]).distance ≤ (CONFIG.maxEditDistance : ℕ∞) ∧
      CONFIG.minSimilarity.le (findBestMatch "gtValue" ["getValue"]).similarity ∧
      CONFIG.minMargin.le (findBestMatch "gtValue" ["getValue"]).margin) ∧
    (findBestMatch "zz" ["getValue"]).match_ = none :=
  ⟨C1_match_respects_floor_and_margin.1 "gtValue" ["getValue"] (by decide) "getValue"
      (by decide),
    C1_match_respects_floor_and_margin.2.1 "zz" ["getValue"] (by decide) (by decide)⟩

/-- C2: an identifier that is an exact dictionary member yields the trivial
perfect `findBestMatch` result (match = the identifier, distance 0,
similarity 1, tier none, auto-fix false); and no correction or suggestion
produced by `analyzeCode` has an `original` that is valid in its selected
dictionary (the class-name set for class corrections, the context method
dictionary or `ALL_METHODS` fallback for method corrections). -/
theorem C2_identity_on_exact_member :
    (∀ (identifier : String) (dictionary : List String), identifier ∈ dictionary →
      findBestMatch identifier dictionary =
        { match_ := some identifier, distance := 0, similarity := 1, margin := 1,
          confidence := none, shouldAutoFix := false }) ∧
    (∀ (code : String) (c : Correction),
      c ∈ (analyzeCode code).corrections ∨ c ∈ (analyzeCode code).suggestions →
      (c.type = CorrectionKind.cls → c.original ∉ CLASS_NAMES) ∧
      (c.type = CorrectionKind.method → c.original ∉ dictForContext c.context)) := by
  constructor
  · intro identifier dictionary h
    unfold findBestMatch
    rw [if_pos h]
  · exact analyzeCode_original_not_valid

/-- C2 witness: the identity result at `query ∈ [query]`, and the
no-valid-original property at a concrete correction of `analyzeCode`. -/
theorem C2_identity_on_exact_member_witness :
    (findBestMatch "query" ["query"] =
      { match_ := some "query", distance := 0, similarity := 1, margin := 1,
        confidence := none, shouldAutoFix := false }) ∧
    ((adQueryCorrection.type = CorrectionKind.cls →
        adQueryCorrection.original ∉ CLASS_NAMES) ∧
      (adQueryCorrection.type = CorrectionKind.method →
        adQueryCorrection.original ∉ dictForContext adQueryCorrection.context)) :=
  ⟨C2_identity_on_exact_member.1 "query" ["query"] (by decide),
    C2_identity_on_exact_member.2
      "var gr = new GlideRecord(a); gr.gtValue(b); gr.adQuery(c);" adQueryCorrection
      (Or.inl (by decide))⟩

/-- C3: the processed text of `fuzzyCorrectCode` is exactly the result of
applying the auto-fix corrections of `analyzeCode`; every suggestion has
confidence `low` and is never among the applied corrections (which are all
`high` or `medium`); `shouldAutoFix` is true only for tiers high and medium;
and at a concrete low-confidence-only input the output text is unchanged
while a suggestion is reported. -/
theorem C3_low_confidence_never_applied :
    (∀ code : String,
      (fuzzyCorrectCode code).processed =
        applyCorrections code (analyzeCode code).corrections) ∧
    (∀ (code : String) (c : Correction), c ∈ (analyzeCode code).suggestions →
      c.confidence = Confidence.low ∧ c ∉ (analyzeCode code).corrections) ∧
    (∀ (code : String) (c : Correction), c ∈ (analyzeCode code).corrections →
      c.confidence = Confidence.high ∨ c.confidence = Confidence.medium) ∧
    (∀ (identifier : String) (dictionary : List String),
      (findBestMatch identifier dictionary).shouldAutoFix = true →
      (findBestMatch identifier dictionary).confidence = some Confidence.high ∨
      (findBestMatch identifier dictionary).confidence = some Confidence.medium) ∧
    ((fuzzyCorrectCode "var gr = new GlideRecord(a); gr.hasnt(b);").processed =
        "var gr = new GlideRecord(a); gr.hasnt(b);" ∧
      (fuzzyCorrectCode "var gr = new GlideRecord(a); gr.hasnt(b);").suggestions ≠ []) := by
  refine ⟨fun code => rfl, ?_, analyzeCode_corrections_conf, ?_, by decide, by decide⟩
  · intro code c h
    refine ⟨analyzeCode_suggestions_conf code c h, fun hmem => ?_⟩
    have h1 := analyzeCode_suggestions_conf code c h
    rcases analyzeCode_corrections_conf code c hmem with h2 | h2 <;>
      rw [h1] at h2 <;> simp at h2
  · intro identifier dictionary hfix
    rcases findBestMatch_conf_autofix identifier dictionary with
      ⟨_, h2⟩ | ⟨h1, _⟩ | ⟨h1, _⟩ | ⟨_, h2⟩
    · rw [hfix] at h2; simp at h2
    · exact Or.inl h1
    · exact Or.inr h1
    · rw [hfix] at h2; simp at h2

/-- C3 witness: the parts with hypotheses instantiated at concrete inputs
(the low-confidence suggestion record of the `gr.hasnt(` input and the
auto-fixed correction of the `gr.adQuery(` input). -/
theorem C3_low_confidence_never_applied_witness :
    ((fuzzyCorrectCode "var gr = new GlideRecord(a); gr.hasnt(b);").processed =
      applyCorrections "var gr = new GlideRecord(a); gr.hasnt(b);"
        (analyzeCode "var gr = new GlideRecord(a); gr.hasnt(b);").corrections) ∧
    (hasntSuggestion.confidence = Confidence.low ∧
      hasntSuggestion ∉
        (analyzeCode "var gr = new GlideRecord(a); gr.hasnt(b);").corrections) ∧
    ((findBestMatch "gtValue" ["getValue"]).confidence = some Confidence.high ∨
      (findBestMatch "gtValue" ["getValue"]).confidence = some Confidence.medium) :=
  ⟨C3_low_confidence_never_applied.1 "var gr = new GlideRecord(a); gr.hasnt(b);",
    C3_low_confidence_never_applied.2.1 "var gr = new GlideRecord(a); gr.hasnt(b);"
      hasntSuggestion (by decide),
    C3_low_confidence_never_applied.2.2.2.1 "gtValue" ["getValue"] (by decide)⟩

/-- C4: for every input, both lists returned by `analyzeCode` are sorted by
descending `startIndex`; and for a concrete input with two independent
correctable occurrences whose replacements are longer than the originals
(`gtValue → getValue` and `adQuery → addQuery`), both corrections carry their
correct original spans and `applyCorrections` fixes both at the right
locations. -/
theorem C4_descending_sort_and_offset_safety :
    (∀ code : String,
      List.Sorted (fun a b : Correction => b.startIndex ≤ a.startIndex)
        (analyzeCode code).corrections ∧
      List.Sorted (fun a b : Correction => b.startIndex ≤ a.startIndex)
        (analyzeCode code).suggestions) ∧
    ((analyzeCode "var gr = new GlideRecord(a); gr.gtValue(b); gr.adQuery(c);").corrections.map
        (fun c => (c.original, c.corrected, c.startIndex, c.endIndex)) =
      [("adQuery", "addQuery", 47, 54), ("gtValue", "getValue", 32, 39)]) ∧
    ((fuzzyCorrectCode "var gr = new GlideRecord(a); gr.gtValue(b); gr.adQuery(c);").processed =
      "var gr = new GlideRecord(a); gr.getValue(b); gr.addQuery(c);") :=
  ⟨fun code => ⟨sorted_sortDescByStart _, sorted_sortDescByStart _⟩, by decide, by decide⟩

/-- C5 counterexample (against the claim as stated): the binding
`var x = new GlideHTTPRequest(a);` stores the context `GlideHTTPRequest` in
the type map, yet `GlideHTTPRequest` is not a key of `CONTEXT_METHOD_MAP`, so
the stored context has no corresponding method dictionary. -/
theorem C5_context_without_method_dictionary :
    ("x", "GlideHTTPRequest") ∈ inferVariableTypes "var x = new GlideHTTPRequest(a);" ∧
      cmLookup "GlideHTTPRequest" = none := by
  constructor <;> decide

/-- C5 (amended): every context value stored by `inferVariableTypes` is a
member of the canonical class-name set `CLASS_NAMES` (the factory contexts
`GlideUser`/`GlideSession` included); it need not be a key of
`CONTEXT_METHOD_MAP` — such contexts fall back to `ALL_METHODS` downstream. -/
theorem C5_typemap_values_in_class_names :
    ∀ (code : String) (k v : String), (k, v) ∈ inferVariableTypes code →
      v ∈ CLASS_NAMES :=
  inferVariableTypes_values

/-- C5 witness: the amended theorem applied to a concrete binding. -/
theorem C5_typemap_values_in_class_names_witness : "GlideRecord" ∈ CLASS_NAMES :=
  C5_typemap_values_in_class_names "var gr = new GlideRecord(a);" "gr" "GlideRecord"
    (by decide)

/-- C6 counterexample (against the claim as stated): `SOAPMessageV2` maps to
`SOAP_MESSAGE_V2_METHODS`, which contains `setWSSecurity`, yet
`setWSSecurity` is not in the flattened union `ALL_METHODS` (the source
spread omits `SOAP_MESSAGE_V2_METHODS`). -/
theorem C6_soap_methods_escape_union :
    ("SOAPMessageV2", SOAP_MESSAGE_V2_METHODS) ∈ CONTEXT_METHOD_MAP ∧
      "setWSSecurity" ∈ SOAP_MESSAGE_V2_METHODS ∧
      "setWSSecurity" ∉ ALL_METHODS := by
  refine ⟨by decide, by decide, fun h => ?_⟩
  unfold ALL_METHODS at h
  rw [mem_jsSetDedup] at h
  exact absurd h (by decide)

/-- C6 (amended): every context-specific method set of `CONTEXT_METHOD_MAP`
except the one for `SOAPMessageV2` is a subset of the flattened union
`ALL_METHODS`; the `SOAPMessageV2` set exceeds the union exactly by
`setWSSecurity` and `setSOAPAction`. -/
theorem C6_context_methods_subset_of_union :
    (∀ (ctx : String) (methods : List String),
      (ctx, methods) ∈ CONTEXT_METHOD_MAP → ctx ≠ "SOAPMessageV2" →
      ∀ m ∈ methods, m ∈ ALL_METHODS) ∧
    (∀ m ∈ SOAP_MESSAGE_V2_METHODS,
      m ∈ ALL_METHODS ∨ m = "setWSSecurity" ∨ m = "setSOAPAction") := by
  constructor
  · intro ctx methods hmem hne m hm
    fin_cases hmem <;>
      first
        | exact absurd rfl hne
        | exact mem_ALL_METHODS_of_component (by decide) hm
  · intro m hm
    rcases List.mem_append.mp hm with hm | hm
    · exact Or.inl (mem_ALL_METHODS_of_component (by decide) hm)
    · rcases List.mem_cons.mp hm with rfl | hm
      · exact Or.inr (Or.inl rfl)
      · rcases List.mem_cons.mp hm with rfl | hm
        · exact Or.inr (Or.inr rfl)
        · simp at hm

/-- C6 witness: the amended subset statement applied to the `gs` context and
the method `log`. -/
theorem C6_context_methods_subset_of_union_witness : "log" ∈ ALL_METHODS :=
  C6_context_methods_subset_of_union.1 "gs" GLIDE_SYSTEM_METHODS (by decide)
    (by decide) "log" (by decide)

/-- C7: `getReceiverType` returns the receiver itself whenever the receiver
is a key of `CONTEXT_METHOD_MAP` (global objects take precedence over any
inferred type, even a shadowing type-map entry); otherwise it returns the
type map entry for the receiver when present, and null when absent. -/
theorem C7_receiver_type_resolution :
    ∀ (receiver : String) (typeMap : List (String × String)),
      ((cmLookup receiver).isSome → getReceiverType receiver typeMap = some receiver) ∧
      (cmLookup receiver = none →
        getReceiverType receiver typeMap = mapGet typeMap receiver) ∧
      (cmLookup receiver = none → mapGet typeMap receiver = none →
        getReceiverType receiver typeMap = none) := by
  intro receiver typeMap
  refine ⟨fun h => ?_, fun h => ?_, fun h h2 => ?_⟩
  · unfold getReceiverType
    rw [if_pos h]
  · unfold getReceiverType
    rw [if_neg (by simp [h])]
  · unfold getReceiverType
    rw [if_neg (by simp [h])]
    exact h2

/-- C7 witness: the fixed global `gs` wins even when shadowed by a type-map
entry, and an unknown receiver with an empty type map resolves to null. -/
theorem C7_receiver_type_resolution_witness :
    getReceiverType "gs" [("gs", "GlideRecord")] = some "gs" ∧
      getReceiverType "zz" [] = none :=
  ⟨(C7_receiver_type_resolution "gs" [("gs", "GlideRecord")]).1 (by decide),
    (C7_receiver_type_resolution "zz" []).2.2 (by decide) (by decide)⟩

/-- C8 counterexample (against the claim as stated): the input
`var gr = new GlideRecord(a); gr.hasnt(b);` stabilizes after one pass (the
text never changes), yet the second run returns the same non-empty
`suggestions` list rather than an empty one. -/
theorem C8_suggestions_recur_on_second_pass :
    (fuzzyCorrectCode
        (fuzzyCorrectCode "var gr = new GlideRecord(a); gr.hasnt(b);").processed).processed =
      (fuzzyCorrectCode "var gr = new GlideRecord(a); gr.hasnt(b);").processed ∧
    (fuzzyCorrectCode
        (fuzzyCorrectCode "var gr = new GlideRecord(a); gr.hasnt(b);").processed).suggestions ≠
      [] := by
  constructor <;> decide

/-- C8 (amended): for any input whose first-pass output re-analyzes with no
auto-fix corrections, the second run changes nothing and returns an empty
`fixes` list; low-confidence `suggestions` may however be reported again. -/
theorem C8_second_pass_stable :
    ∀ code : String,
      (analyzeCode (fuzzyCorrectCode code).processed).corrections = [] →
      (fuzzyCorrectCode (fuzzyCorrectCode code).processed).processed =
          (fuzzyCorrectCode code).processed ∧
        (fuzzyCorrectCode (fuzzyCorrectCode code).processed).fixes = [] :=
  fun _ h => fuzzyCorrectCode_no_corrections _ h

/-- C8 witness: the amended theorem applied to the concrete stabilizing
input. -/
theorem C8_second_pass_stable_witness :
    (fuzzyCorrectCode
        (fuzzyCorrectCode "var gr = new GlideRecord(a); gr.hasnt(b);").processed).processed =
      (fuzzyCorrectCode "var gr = new GlideRecord(a); gr.hasnt(b);").processed ∧
    (fuzzyCorrectCode
        (fuzzyCorrectCode "var gr = new GlideRecord(a); gr.hasnt(b);").processed).fixes = [] :=
  C8_second_pass_stable "var gr = new GlideRecord(a); gr.hasnt(b);" (by decide)

/-- C9: the Damerau-Levenshtein distance is symmetric in its two arguments
after lower-casing both inputs. -/
theorem C9_distance_symmetric_after_lowercasing :
    ∀ a b : String,
      damerauLevenshteinDistance (jsToLower a) (jsToLower b) =
        damerauLevenshteinDistance (jsToLower b) (jsToLower a) :=
  fun a b => damerauLevenshteinDistance_symm (jsToLower a) (jsToLower b)

/-- C10: on the empty dictionary, `findBestMatch` returns normally with a
null match, null confidence, `shouldAutoFix = false`, similarity 0, margin 0
and a `distance` of `Infinity` (modelled `⊤ : ℕ∞`) rather than a natural
number. -/
theorem C10_empty_dictionary_result :
    ∀ identifier : String,
      findBestMatch identifier [] =
        { match_ := none, distance := ⊤, similarity := 0, margin := 0,
          confidence := none, shouldAutoFix := false } := by
  intro identifier
  unfold findBestMatch
  rw [if_neg (List.not_mem_nil identifier)]
  rfl


end Glideaware
